import Mathlib

/-! SignPDFKit Go binding: signing orchestration and revocation pipeline.

A shallow embedding of `src/go/signpdfkit.go`.

* Go `string` values that the binding only stores, compares or hands on
  (paths, metadata, the CMS container, JSON texts) are Lean `String`s.
* Go `[]byte` values, and strings that the code inspects byte by byte
  (`extractCRLDER`, base64), are lists of bytes.
* Every call that leaves the Go code (the native engine behind the C shim,
  the signing callback, the HTTP client) is a field of an environment record
  and is recorded, in program order, in a trace of `Event`s.
* `encoding/json` is not part of the repository: decoding of the two engine
  replies and encoding of the revocation bundle are fields of `Json`.
-/

namespace SignPDFKit

/-! ## Constants (the four `iota` blocks) -/

def Invisible : Int := 0
def VisibleImage : Int := 1
def VisibleQR : Int := 2
def VisibleImageFromChar : Int := 3
def VisibleQRFromChar : Int := 4

def ADBE : Int := 0
def PAdES : Int := 1

def SIGNATURE : Int := 0
def SEAL : Int := 1

def DSS_NO : Int := 0
def DSS_YES : Int := 1

/-! ## Basic data -/

abbrev Byte := Fin 256
abbrev Bytes := List Byte

/-- The bytes of a Go string holding the text `s` (its UTF-8 encoding). -/
def goBytes (s : String) : Bytes :=
  s.data.flatMap (fun c => (String.utf8EncodeChar c).map (fun u => Fin.ofNat u.toNat))

/-- The string whose bytes are the ASCII codes `bs` (used for base64 text). -/
def asciiString (bs : Bytes) : String :=
  String.mk (bs.map (fun b => Char.ofNat b.val))

/-- A `float64`, carried as its IEEE-754 bit pattern: the binding never computes
with these values, it only stores them and hands them to the engine. -/
structure Float64 where
  bits : Nat
deriving DecidableEq, Repr

/-- The constant `0.0`. -/
def Float64.zero : Float64 := ⟨0⟩
/-- The constant `50.0` (bit pattern `0x4049000000000000`). -/
def Float64.fifty : Float64 := ⟨0x4049000000000000⟩

/-- Conversion `C.int(v)` of a Go `int`: reduction to 32-bit two-complement. -/
def cInt (v : Int) : Int := (v + 2147483648) % 4294967296 - 2147483648

structure DataStruct where
  Br1 : Int
  Br2 : Int
  Br3 : Int
  Br4 : Int
  CatalogObjNumber : Int
  CatalogObjString : String
  Digest : String
  IsDss : Int
  IsTrailerStream : Int
  NewStartxref : Int
  ObjSize : Int
  Pdf : String
deriving DecidableEq, Repr

structure PreSignData where
  ResponseCode : Int
  ResponseStatus : String
  Data : DataStruct
deriving DecidableEq, Repr

/-- One revocation descriptor; `Typ` is the Go field `Type` (JSON `type`). -/
structure RevocationItem where
  Typ : String
  URL : String
  Request : String
deriving DecidableEq, Repr

structure RevocationData where
  CMS : String
  OCSP : List String
  CRL : List String
deriving DecidableEq, Repr

/-- The `jsonData` map of `SignPDF`: its two keys. -/
structure SignResult where
  response_code : Int
  response_status : String
deriving DecidableEq, Repr

/-- The `options` map handed to the signing callback. -/
abbrev Options := List (String × String)

structure SignArgs where
  InputPath : String
  OutputPath : String
  ImagePath : Option String
  URL : Option String
  Location : Option String
  Reason : Option String
  ContactInfo : Option String
  FieldID : Option String
  Character : Option String
  SignatureType : Option Int
  Page : Option Int
  FieldType : Option Int
  Visibility : Option Int
  X : Option Float64
  Y : Option Float64
  Width : Option Float64
  Height : Option Float64
  DSS : Option Int
deriving DecidableEq, Repr

structure SignOptions where
  ImagePath : String
  URL : String
  Location : String
  Reason : String
  ContactInfo : String
  FieldID : String
  Character : String
  SignatureType : Int
  Page : Int
  FieldType : Int
  Visibility : Int
  X : Float64
  Y : Float64
  Width : Float64
  Height : Float64
  DSS : Int
deriving DecidableEq, Repr

/-- The seventeen arguments of the C function `calculate_digest`, in order. -/
structure DigestArgs where
  input_path : String
  image_path : String
  url : String
  location : String
  reason : String
  contact_info : String
  field_id : String
  character : String
  signature_type : Int
  page : Int
  field_type : Int
  typ : Int
  x : Float64
  y : Float64
  width : Float64
  height : Float64
  dss : Int
deriving DecidableEq, Repr

/-! ## The world outside the Go code -/

/-- The global function pointers of the C shim; `none` is `NULL`. A digest or
revocation function returns `char*`, `none` being `NULL`. -/
structure CLib where
  calculate_digest_ptr : Option (DigestArgs → Option String)
  get_revocation_parameters_ptr : Option (String → Option String)
  embed_cms_ptr : Option (String → String → String → Int)

/-- What an HTTP call gives back: `err != nil`, or a response with its status
code and its body (`none` when `io.ReadAll` fails). -/
inductive HttpReply where
  | transportError : HttpReply
  | response (status : Int) (body : Option Bytes) : HttpReply
deriving DecidableEq, Repr

/-- The two methods of `http.Client` the binding uses. -/
structure HttpClient where
  Post : String → String → Bytes → HttpReply
  Get : String → HttpReply

/-- The three uses of `encoding/json` on engine data. -/
structure Json where
  unmarshalPreSignData : String → Except String PreSignData
  unmarshalRevocationItems : String → Except String (List RevocationItem)
  marshalRevocationData : RevocationData → String

structure LibSignPDF where
  signFn : String → Options → String
  options : Options
  httpClient : HttpClient

/-- One call that leaves the Go code. -/
inductive Event where
  | calculate_digest (args : DigestArgs) : Event
  | signFn (digest : String) (options : Options) : Event
  | get_revocation_parameters (cms : String) : Event
  | httpPost (url contentType : String) (body : Bytes) : Event
  | httpGet (url : String) : Event
  | embed_cms (pre_calculate cms output_path : String) : Event
deriving DecidableEq, Repr

/-- C shim `calculate_digest`: calls through the pointer, `NULL` without one. -/
def calculate_digest (c : CLib) (a : DigestArgs) : Option String :=
  match c.calculate_digest_ptr with
  | some f => f a
  | none => none

/-- C shim `get_revocation_parameters`. -/
def get_revocation_parameters (c : CLib) (cms : String) : Option String :=
  match c.get_revocation_parameters_ptr with
  | some f => f cms
  | none => none

/-- C shim `embed_cms`: `-1` without a pointer. -/
def embed_cms (c : CLib) (pre_calculate cms output_path : String) : Int :=
  match c.embed_cms_ptr with
  | some f => f pre_calculate cms output_path
  | none => -1

/-! ## The pieces of `strings` the binding uses -/

/-- Lower case of one rune. Go maps every Unicode letter; only ASCII letters are
mapped here, which is all the `.pdf` test can see: no rune outside ASCII has
`.`, `p`, `d` or `f` as its lower case. -/
def toLowerRune (c : Char) : Char :=
  if 65 ≤ c.toNat ∧ c.toNat ≤ 90 then Char.ofNat (c.toNat + 32) else c

/-- Model of `strings.ToLower`. -/
def ToLower (s : String) : String := String.mk (s.data.map toLowerRune)

/-- Model of `strings.HasSuffix` (on the runes of valid UTF-8 text). -/
def HasSuffix (s suffix : String) : Bool :=
  suffix.data.reverse.isPrefixOf s.data.reverse

/-- Model of `strings.HasPrefix` on bytes. -/
def HasPrefixBytes (s pre : Bytes) : Bool := pre.isPrefixOf s

/-- Model of `strings.Contains` on bytes: some tail of `s` starts with `sub`. -/
def ContainsBytes : Bytes → Bytes → Bool
  | [], sub => sub.isPrefixOf []
  | c :: s, sub => sub.isPrefixOf (c :: s) || ContainsBytes s sub

/-- Model of `strings.Split(s, sep)` for a one-byte separator. -/
def SplitByte (sep : Byte) : Bytes → List Bytes
  | [] => [[]]
  | c :: s =>
    if c = sep then [] :: SplitByte sep s
    else
      match SplitByte sep s with
      | line :: rest => (c :: line) :: rest
      | [] => [[c]]

/-- The ASCII white space of `unicode.IsSpace`: tab, LF, VT, FF, CR, space. -/
def isAsciiSpace (b : Byte) : Bool :=
  b.val = 9 || b.val = 10 || b.val = 11 || b.val = 12 || b.val = 13 || b.val = 32

/-- UTF-8 encodings of the two-byte white space runes U+0085 and U+00A0. -/
def isSpace2 (a b : Byte) : Bool :=
  a.val = 0xC2 && (b.val = 0x85 || b.val = 0xA0)

/-- UTF-8 encodings of the three-byte white space runes: U+1680, U+2000..U+200A,
U+2028, U+2029, U+202F, U+205F, U+3000. -/
def isSpace3 (a b c : Byte) : Bool :=
  (a.val = 0xE1 && b.val = 0x9A && c.val = 0x80) ||
  (a.val = 0xE2 && b.val = 0x80 &&
    ((0x80 ≤ c.val && c.val ≤ 0x8A) || c.val = 0xA8 || c.val = 0xA9 || c.val = 0xAF)) ||
  (a.val = 0xE2 && b.val = 0x81 && c.val = 0x9F) ||
  (a.val = 0xE3 && b.val = 0x80 && c.val = 0x80)

/-- Model of `strings.TrimLeftFunc(s, unicode.IsSpace)`: drops leading runes
that are white space. -/
def TrimLeftSpace : Bytes → Bytes
  | [] => []
  | a :: s =>
    if isAsciiSpace a then TrimLeftSpace s
    else
      match s with
      | [] => [a]
      | b :: s2 =>
        if isSpace2 a b then TrimLeftSpace s2
        else
          match s2 with
          | [] => [a, b]
          | c :: s3 => if isSpace3 a b c then TrimLeftSpace s3 else a :: b :: c :: s3

/-- Trailing white space runes dropped, on the reversed byte sequence. -/
def trimRevSpace : Bytes → Bytes
  | [] => []
  | c :: s =>
    if isAsciiSpace c then trimRevSpace s
    else
      match s with
      | [] => [c]
      | b :: s2 =>
        if isSpace2 b c then trimRevSpace s2
        else
          match s2 with
          | [] => [c, b]
          | a :: s3 => if isSpace3 a b c then trimRevSpace s3 else c :: b :: a :: s3

/-- Model of `strings.TrimRightFunc(s, unicode.IsSpace)`. -/
def TrimRightSpace (s : Bytes) : Bytes := (trimRevSpace s.reverse).reverse

/-- Model of `strings.TrimSpace`. -/
def TrimSpace (s : Bytes) : Bytes := TrimRightSpace (TrimLeftSpace s)

/-! ## `encoding/base64`, `StdEncoding` -/

/-- The standard alphabet, `encodeStd`. -/
def encodeStd : Bytes :=
  goBytes "ABCDEFGHIJKLMNOPQRSTUVWXYZabcdefghijklmnopqrstuvwxyz0123456789+/"

/-- The padding character `=`. -/
def padChar : Byte := 61

/-- Lookup `enc.encode[v]`. -/
def encodeSextet (v : Nat) : Byte := encodeStd.getD v 0

/-- Lookup `enc.decodeMap[b]`; `none` stands for the entry `0xff`. -/
def decodeMap (b : Byte) : Option Nat :=
  if encodeStd.indexOf b < 64 then some (encodeStd.indexOf b) else none

/-- Model of `StdEncoding.Encode`. The value `val` packs three bytes
(`a<<16 | b<<8 | c`); shifts and masks are written as division and remainder. -/
def encodeBytes : Bytes → Bytes
  | a :: b :: c :: rest =>
    let val := a.val * 65536 + b.val * 256 + c.val
    encodeSextet (val / 262144 % 64) :: encodeSextet (val / 4096 % 64) ::
      encodeSextet (val / 64 % 64) :: encodeSextet (val % 64) :: encodeBytes rest
  | [a, b] =>
    let val := a.val * 65536 + b.val * 256
    [encodeSextet (val / 262144 % 64), encodeSextet (val / 4096 % 64),
      encodeSextet (val / 64 % 64), padChar]
  | [a] =>
    let val := a.val * 65536
    [encodeSextet (val / 262144 % 64), encodeSextet (val / 4096 % 64), padChar, padChar]
  | [] => []

/-- Model of `StdEncoding.EncodeToString`. -/
def EncodeToString (src : Bytes) : String := asciiString (encodeBytes src)

/-- The bytes a quantum of sextets stands for: `val` packs four sextets
(`d0<<18 | d1<<12 | d2<<6 | d3`) and the first `n` of its three bytes are kept. -/
def quantumBytes (dbuf : List Nat) (n : Nat) : Bytes :=
  let val := dbuf.getD 0 0 * 262144 + dbuf.getD 1 0 * 4096 + dbuf.getD 2 0 * 64 + dbuf.getD 3 0
  ([Fin.ofNat (val / 65536), Fin.ofNat (val / 256), Fin.ofNat val] : Bytes).take n

/-- The input after the line breaks that may follow padding. -/
def skipNewlines : Bytes → Bytes
  | [] => []
  | c :: s => if c.val = 10 ∨ c.val = 13 then skipNewlines s else c :: s

/-- Model of `StdEncoding.Decode` (padded, not strict): `src` is the input left,
`dbuf` the sextets of the current quantum, `dst` the output so far. Line breaks
are skipped anywhere; padding is only accepted to complete the last quantum. -/
def decodeLoop : Bytes → List Nat → Bytes → Option Bytes
  | [], dbuf, dst => if dbuf = [] then some dst else none
  | c :: src, dbuf, dst =>
    match decodeMap c with
    | some v =>
      if dbuf.length = 3 then decodeLoop src [] (dst ++ quantumBytes (dbuf ++ [v]) 3)
      else decodeLoop src (dbuf ++ [v]) dst
    | none =>
      if c.val = 10 ∨ c.val = 13 then decodeLoop src dbuf dst
      else if c ≠ padChar then none
      else if dbuf.length = 2 then
        match skipNewlines src with
        | [] => none
        | p :: rest =>
          if p ≠ padChar then none
          else if skipNewlines rest = [] then some (dst ++ quantumBytes dbuf 1) else none
      else if dbuf.length = 3 then
        if skipNewlines src = [] then some (dst ++ quantumBytes dbuf 2) else none
      else none

/-- Model of `StdEncoding.DecodeString` on the bytes of the string; `none` is
`err != nil`. -/
def decodeBytes (s : Bytes) : Option Bytes := decodeLoop s [] []

/-- Model of `StdEncoding.DecodeString` on a text. -/
def DecodeString (s : String) : Option Bytes := decodeBytes (goBytes s)

/-! ## CRL normalisation -/

/-- The loop of `extractCRLDER` over the lines: the builder `pemBody` after
writing the trimmed lines that do not start with `---`. -/
def pemBodyOf (lines : List Bytes) : Bytes :=
  lines.foldl
    (fun pemBody line =>
      if !HasPrefixBytes line (goBytes "---") then pemBody ++ TrimSpace line else pemBody)
    []

def extractCRLDER (content : Bytes) : Bytes :=
  if !ContainsBytes content (goBytes "BEGIN X509 CRL") then content
  else
    let lines := SplitByte 10 content
    match decodeBytes (pemBodyOf lines) with
    | some der => der
    | none => content

/-! ## Options with defaults -/

def DefaultSignOptions : SignOptions :=
  { ImagePath := "example.png"
    URL := "signpdfkit.com"
    Location := "Jakarta"
    Reason := "Need to sign"
    ContactInfo := "signpdfkit@gmail.com"
    FieldID := "SignPDFKit"
    Character := "#"
    SignatureType := SIGNATURE
    Page := 1
    FieldType := ADBE
    Visibility := Invisible
    X := Float64.zero
    Y := Float64.zero
    Width := Float64.fifty
    Height := Float64.fifty
    DSS := DSS_NO }

/-- The statement `if p != nil { assign(*p) }` on the options being built. -/
def ifSet {α : Type} (p : Option α) (assign : α → SignOptions → SignOptions)
    (opts : SignOptions) : SignOptions :=
  match p with
  | some v => assign v opts
  | none => opts

/-- The first block of `SignPDF`: `opts := DefaultSignOptions()` followed by the
sixteen overrides, in source order. -/
def resolveOptions (args : SignArgs) : SignOptions :=
  let opts := DefaultSignOptions
  let opts := ifSet args.ImagePath (fun v o => { o with ImagePath := v }) opts
  let opts := ifSet args.URL (fun v o => { o with URL := v }) opts
  let opts := ifSet args.Location (fun v o => { o with Location := v }) opts
  let opts := ifSet args.Reason (fun v o => { o with Reason := v }) opts
  let opts := ifSet args.ContactInfo (fun v o => { o with ContactInfo := v }) opts
  let opts := ifSet args.FieldID (fun v o => { o with FieldID := v }) opts
  let opts := ifSet args.Character (fun v o => { o with Character := v }) opts
  let opts := ifSet args.SignatureType (fun v o => { o with SignatureType := v }) opts
  let opts := ifSet args.Page (fun v o => { o with Page := v }) opts
  let opts := ifSet args.FieldType (fun v o => { o with FieldType := v }) opts
  let opts := ifSet args.Visibility (fun v o => { o with Visibility := v }) opts
  let opts := ifSet args.X (fun v o => { o with X := v }) opts
  let opts := ifSet args.Y (fun v o => { o with Y := v }) opts
  let opts := ifSet args.Width (fun v o => { o with Width := v }) opts
  let opts := ifSet args.Height (fun v o => { o with Height := v }) opts
  let opts := ifSet args.DSS (fun v o => { o with DSS := v }) opts
  opts

/-- The arguments of the call `C.calculate_digest(...)` in `SignPDF`, with the
conversions `C.int` and `C.double` (the latter the identity on a `float64`). -/
def digestArgsOf (InputPath : String) (opts : SignOptions) : DigestArgs :=
  { input_path := InputPath
    image_path := opts.ImagePath
    url := opts.URL
    location := opts.Location
    reason := opts.Reason
    contact_info := opts.ContactInfo
    field_id := opts.FieldID
    character := opts.Character
    signature_type := cInt opts.SignatureType
    page := cInt opts.Page
    field_type := cInt opts.FieldType
    typ := cInt opts.Visibility
    x := opts.X
    y := opts.Y
    width := opts.Width
    height := opts.Height
    dss := cInt opts.DSS }

/-! ## Revocation evidence -/

/-- State of the revocation loop: the bundle under construction and the HTTP
calls issued so far. -/
abbrev RevState := RevocationData × List Event

def processOCSPItem (lib : LibSignPDF) (item : RevocationItem) (st : RevState) : RevState :=
  match DecodeString item.Request with
  | none => st
  | some ocspReq =>
    let trace := st.2 ++ [Event.httpPost item.URL "application/ocsp-request" ocspReq]
    match lib.httpClient.Post item.URL "application/ocsp-request" ocspReq with
    | HttpReply.transportError => (st.1, trace)
    | HttpReply.response status body =>
      if status < 200 ∨ status ≥ 300 then (st.1, trace)
      else
        match body with
        | none => (st.1, trace)
        | some body => ({ st.1 with OCSP := st.1.OCSP ++ [EncodeToString body] }, trace)

def processCRLItem (lib : LibSignPDF) (item : RevocationItem) (st : RevState) : RevState :=
  let trace := st.2 ++ [Event.httpGet item.URL]
  match lib.httpClient.Get item.URL with
  | HttpReply.transportError => (st.1, trace)
  | HttpReply.response status body =>
    if status < 200 ∨ status ≥ 300 then (st.1, trace)
    else
      match body with
      | none => (st.1, trace)
      | some body =>
        let crlDer := extractCRLDER body
        ({ st.1 with CRL := st.1.CRL ++ [EncodeToString crlDer] }, trace)

def processRevocationData (lib : LibSignPDF) (items : List RevocationItem) (st : RevState) :
    RevState :=
  items.foldl
    (fun st item =>
      if item.Typ = "ocsp" then processOCSPItem lib item st
      else if item.Typ = "crl" then processCRLItem lib item st
      else st)
    st

/-- What `getRevocation` returns (`text`, and `err` with `none` for `nil`),
together with the calls it made. -/
structure RevocationReturn where
  text : String
  err : Option String
  trace : List Event

def getRevocation (c : CLib) (j : Json) (lib : LibSignPDF) (cms : String) (dss : Int) :
    RevocationReturn :=
  let trace := [Event.get_revocation_parameters cms]
  match get_revocation_parameters c cms with
  | none => ⟨"", none, trace⟩
  | some resultStr =>
    if resultStr = "" then ⟨"", none, trace⟩
    else
      match j.unmarshalRevocationItems resultStr with
      | Except.error e => ⟨"", some ("failed to parse JSON: " ++ e), trace⟩
      | Except.ok items =>
        let jsonData : RevocationData := { CMS := cms, OCSP := [], CRL := [] }
        let st : RevState :=
          if dss = DSS_YES then processRevocationData lib items (jsonData, trace)
          else (jsonData, trace)
        ⟨j.marshalRevocationData st.1, none, st.2⟩

/-! ## The sign orchestrator -/

/-- The map `jsonData` at the `json.Marshal` that ends a run of `SignPDF`, and the
calls the run made. -/
structure Outcome where
  jsonData : SignResult
  trace : List Event

/-- The test `SignPDF` makes on the two paths; `true` sends the run to code 3. -/
def pathsRejected (args : SignArgs) : Bool :=
  args.InputPath == "" || args.OutputPath == "" ||
    !HasSuffix (ToLower args.InputPath) ".pdf" ||
    !HasSuffix (ToLower args.OutputPath) ".pdf"

def SignPDFRun (c : CLib) (j : Json) (lib : LibSignPDF) (args : SignArgs) : Outcome :=
  let opts := resolveOptions args
  let jsonData : SignResult := ⟨0, "success"⟩
  if pathsRejected args then ⟨⟨3, "Input parameters are incorrect"⟩, []⟩
  else
    let digestArgs := digestArgsOf args.InputPath opts
    let trace := [Event.calculate_digest digestArgs]
    match calculate_digest c digestArgs with
    | none => ⟨⟨4, "Failed when processing PDF"⟩, trace⟩
    | some preSignStr =>
      if preSignStr = "" then ⟨⟨4, "Failed when processing PDF"⟩, trace⟩
      else
        match j.unmarshalPreSignData preSignStr with
        | Except.error _ => ⟨⟨4, "Failed to parse JSON"⟩, trace⟩
        | Except.ok data =>
          if data.ResponseCode = 0 then
            let cms := lib.signFn data.Data.Digest lib.options
            let trace := trace ++ [Event.signFn data.Data.Digest lib.options]
            let rev := getRevocation c j lib cms opts.DSS
            let responseStr := rev.text
            let trace := trace ++ rev.trace
            let result := embed_cms c preSignStr responseStr args.OutputPath
            let trace := trace ++ [Event.embed_cms preSignStr responseStr args.OutputPath]
            if result = 0 then ⟨jsonData, trace⟩
            else ⟨⟨4, "Failed when processing PDF"⟩, trace⟩
          else if data.ResponseCode = 1 then ⟨⟨1, "Failed to open/read document"⟩, trace⟩
          else if data.ResponseCode = 4 then ⟨⟨4, "Failed when processing PDF"⟩, trace⟩
          else if data.ResponseCode = 5 then ⟨⟨5, "PDF File not found"⟩, trace⟩
          else if data.ResponseCode = 6 then ⟨⟨6, "Visualization Image not found"⟩, trace⟩
          else ⟨⟨4, "Failed when processing PDF"⟩, trace⟩

/-- The text `json.Marshal(jsonData)` of the two-key map: keys in sorted order, the
code in decimal, the status quoted. None of the status texts of `SignPDF` holds a
character that JSON escapes. -/
def marshalSignResult (r : SignResult) : String :=
  "\x7b\"response_code\":" ++ toString r.response_code ++
    ",\"response_status\":\"" ++ r.response_status ++ "\"\x7d"

/-- The method `SignPDF`: the JSON text it returns. -/
def SignPDF (c : CLib) (j : Json) (lib : LibSignPDF) (args : SignArgs) : String :=
  marshalSignResult (SignPDFRun c j lib args).jsonData

/-! ## Path validation: what the test accepts -/

/-- A path ends, in any letter case, with `.pdf`. -/
def endsWithPdf (s : String) : Prop :=
  ∃ pre a b c, s.data = pre ++ ['.', a, b, c] ∧
    (a = 'p' ∨ a = 'P') ∧ (b = 'd' ∨ b = 'D') ∧ (c = 'f' ∨ c = 'F')

/-- A path passes validation: non-empty and ending in `.pdf`, any case. -/
def validPath (s : String) : Prop := s ≠ "" ∧ endsWithPdf s


/-! ## A stub world for the examples

A fake engine, signing callback, HTTP responder and JSON codec with fixed
answers. The codec agrees with `encoding/json` on the few texts used here and
rejects every other text. -/

/-- A pre-sign package with response code 0 and a digest. -/
def pkgSuccess : String :=
  "\x7b\"response_code\":0,\"response_status\":\"success\",\"data\":\x7b\"digest\":\"3q2+7w==\"\x7d\x7d"

/-- A pre-sign package with response code 0 and no digest. -/
def pkgNoDigest : String :=
  "\x7b\"response_code\":0,\"response_status\":\"success\",\"data\":\x7b\x7d\x7d"

/-- A pre-sign package with response code 5. -/
def pkgNotFound : String :=
  "\x7b\"response_code\":5,\"response_status\":\"PDF File not found\"\x7d"

/-- A descriptor list: three OCSP descriptors and one CRL descriptor. -/
def descriptorsText : String :=
  "[\x7b\"type\":\"ocsp\",\"url\":\"http://ocsp.test/a\",\"request\":\"AQI=\"\x7d," ++
  "\x7b\"type\":\"ocsp\",\"url\":\"http://ocsp.test/down\",\"request\":\"AQI=\"\x7d," ++
  "\x7b\"type\":\"ocsp\",\"url\":\"http://ocsp.test/c\",\"request\":\"AQI=\"\x7d," ++
  "\x7b\"type\":\"crl\",\"url\":\"http://crl.test/pem\"\x7d]"

def stubDescriptors : List RevocationItem :=
  [⟨"ocsp", "http://ocsp.test/a", "AQI="⟩, ⟨"ocsp", "http://ocsp.test/down", "AQI="⟩,
   ⟨"ocsp", "http://ocsp.test/c", "AQI="⟩, ⟨"crl", "http://crl.test/pem", ""⟩]

/-- The zero value of `DataStruct`. -/
def zeroData : DataStruct :=
  { Br1 := 0, Br2 := 0, Br3 := 0, Br4 := 0, CatalogObjNumber := 0, CatalogObjString := "",
    Digest := "", IsDss := 0, IsTrailerStream := 0, NewStartxref := 0, ObjSize := 0, Pdf := "" }

/-- JSON text of a bundle whose strings need no escaping. -/
def renderBundle (d : RevocationData) : String :=
  "\x7b\"cms\":\"" ++ d.CMS ++ "\",\"ocsp\":[" ++
    ",".intercalate (d.OCSP.map (fun e => "\"" ++ e ++ "\"")) ++ "],\"crl\":[" ++
    ",".intercalate (d.CRL.map (fun e => "\"" ++ e ++ "\"")) ++ "]\x7d"

def stubJson : Json :=
  { unmarshalPreSignData := fun s =>
      if s = pkgSuccess then
        Except.ok ⟨0, "success", { zeroData with Digest := "3q2+7w==" }⟩
      else if s = pkgNoDigest then Except.ok ⟨0, "success", zeroData⟩
      else if s = pkgNotFound then Except.ok ⟨5, "PDF File not found", zeroData⟩
      else Except.error "invalid character"
    unmarshalRevocationItems := fun s =>
      if s = descriptorsText then Except.ok stubDescriptors
      else Except.error "invalid character"
    marshalRevocationData := renderBundle }

/-- An engine whose three functions give fixed answers. -/
def stubEngine (digest revocation : Option String) (embed : Int) : CLib :=
  { calculate_digest_ptr := some (fun _ => digest)
    get_revocation_parameters_ptr := some (fun _ => revocation)
    embed_cms_ptr := some (fun _ _ _ => embed) }

/-- A PEM-armored CRL whose DER bytes are `1, 2, 3, 4`. -/
def pemSample : Bytes :=
  goBytes "-----BEGIN X509 CRL-----\r\nAQID\r\nBA==\r\n-----END X509 CRL-----\r\n"

/-- A responder: OCSP address `/a` answers 200 with body `a`, `/down` answers
503, any other 200 with body `c`; the CRL address answers 200 with `pemSample`. -/
def stubClient : HttpClient :=
  { Post := fun url _ _ =>
      if url = "http://ocsp.test/a" then HttpReply.response 200 (some [97])
      else if url = "http://ocsp.test/down" then HttpReply.response 503 (some [])
      else HttpReply.response 200 (some [99])
    Get := fun url =>
      if url = "http://crl.test/pem" then HttpReply.response 200 (some pemSample)
      else HttpReply.transportError }

def stubLib : LibSignPDF :=
  { signFn := fun _ _ => "Q01T"
    options := [("email", "user@example.com"), ("passcode", "123456")]
    httpClient := stubClient }

/-- A request with valid paths and every optional field unset. -/
def plainArgs : SignArgs :=
  { InputPath := "in.PDF", OutputPath := "out.pdf", ImagePath := none, URL := none,
    Location := none, Reason := none, ContactInfo := none, FieldID := none, Character := none,
    SignatureType := none, Page := none, FieldType := none, Visibility := none, X := none,
    Y := none, Width := none, Height := none, DSS := none }

/-- The request `plainArgs` with an output path that is not a PDF. -/
def txtArgs : SignArgs := { plainArgs with OutputPath := "out.txt" }

/-! ## The revocation sequences, in the words of the specification -/

/-- The OCSP evidence of one descriptor: for a descriptor of type `ocsp` whose
request is valid base64 and whose POST is answered with a 2xx status and a
readable body, the base64 text of that body; nothing otherwise. -/
def ocspEvidence (client : HttpClient) (item : RevocationItem) : Option String :=
  if item.Typ = "ocsp" then
    match DecodeString item.Request with
    | none => none
    | some req =>
      match client.Post item.URL "application/ocsp-request" req with
      | HttpReply.response status (some body) =>
        if 200 ≤ status ∧ status < 300 then some (EncodeToString body) else none
      | _ => none
  else none

/-- The CRL evidence of one descriptor: for a descriptor of type `crl` whose GET
is answered with a 2xx status and a readable body, the base64 text of the
normalised body; nothing otherwise. -/
def crlEvidence (client : HttpClient) (item : RevocationItem) : Option String :=
  if item.Typ = "crl" then
    match client.Get item.URL with
    | HttpReply.response status (some body) =>
      if 200 ≤ status ∧ status < 300 then some (EncodeToString (extractCRLDER body)) else none
    | _ => none
  else none

/-- Three OCSP descriptors; the second one names the address that answers 503. -/
def threeOcsp : List RevocationItem :=
  [⟨"ocsp", "http://ocsp.test/a", "AQI="⟩, ⟨"ocsp", "http://ocsp.test/down", "AQI="⟩,
   ⟨"ocsp", "http://ocsp.test/c", "AQI="⟩]

/-- The request `plainArgs` with the page set to 7. -/
def pageArgs : SignArgs := { plainArgs with Page := some 7 }

/-! ## PEM armoring, in the words of the specification -/

/-- A line ending: CRLF or LF. -/
def lineEnd (crlf : Bool) : Bytes := if crlf then [13, 10] else [10]

/-- The PEM armoring of a base64 text cut into body lines: the BEGIN marker line,
the body lines, the END marker line, each line with its own ending (the flag of
a line chooses CRLF). -/
def armor (beginCrlf : Bool) (body : List (Bytes × Bool)) (endCrlf : Bool) : Bytes :=
  goBytes "-----BEGIN X509 CRL-----" ++ lineEnd beginCrlf ++
    body.flatMap (fun line => line.1 ++ lineEnd line.2) ++
    (goBytes "-----END X509 CRL-----" ++ lineEnd endCrlf)

/-- A byte of base64 text: a letter, a digit, `+`, `/` or the padding `=`. -/
def plainByte (b : Byte) : Bool :=
  b.val = 43 || b.val = 47 || (48 ≤ b.val && b.val ≤ 57) || b.val = 61 ||
    (65 ≤ b.val && b.val ≤ 90) || (97 ≤ b.val && b.val ≤ 122)

/-- The carriage return that precedes the line feed of a CRLF line ending. -/
def crOf (crlf : Bool) : Bytes := if crlf then [13] else []

/-- What the loop of `extractCRLDER` writes for one line. -/
def keptOf (line : Bytes) : Bytes :=
  if !HasPrefixBytes line (goBytes "---") then TrimSpace line else []

/-- A CRL with DER bytes `1, 2, 3, 4` armored in two body lines, CRLF line ends. -/
def pemBodySample : List (Bytes × Bool) := [(goBytes "AQID", true), (goBytes "BA==", true)]

/-! ## Construction of the signer: library path and HTTP client -/

/-- The field of `tls.Config` the binding sets. -/
structure TLSConfig where
  InsecureSkipVerify : Bool
deriving DecidableEq, Repr

/-- The fields of `http.Transport` the binding sets; `IdleConnTimeout` is a
`time.Duration`, a count of nanoseconds. -/
structure Transport where
  TLSClientConfig : TLSConfig
  MaxIdleConns : Int
  IdleConnTimeout : Int
  DisableKeepAlives : Bool
deriving DecidableEq, Repr

/-- The value `http.Client` as the binding builds it: its transport settings. -/
structure ClientSettings where
  Transport : Transport
deriving DecidableEq, Repr

def createHTTPClient : ClientSettings :=
  { Transport :=
      { TLSClientConfig := { InsecureSkipVerify := true }
        MaxIdleConns := 10
        IdleConnTimeout := 30
        DisableKeepAlives := false } }

/-- The table `platformMappings` of `GetLibraryPath`: directory and file name of
the engine for an operating system and an architecture. -/
def platformMappings (osKey machine : String) : Option (String × String) :=
  if osKey = "darwin" then
    if machine = "amd64" then some ("macos_x86_64", "libsignpdfkit.dylib")
    else if machine = "arm64" then some ("macos_arm64", "libsignpdfkit.dylib")
    else none
  else if osKey = "linux" then
    if machine = "amd64" then some ("linux_x86_64", "libsignpdfkit.so")
    else if machine = "386" then some ("linux_i686", "libsignpdfkit.so")
    else if machine = "arm64" then some ("linux_arm64", "libsignpdfkit.so")
    else if machine = "arm" then some ("linux_armv7", "libsignpdfkit.so")
    else none
  else if osKey = "windows" then
    if machine = "amd64" then some ("windows_x64", "libsignpdfkit.dll")
    else if machine = "386" then some ("windows_x86", "libsignpdfkit.dll")
    else if machine = "arm64" then some ("windows_arm64", "libsignpdfkit.dll")
    else none
  else none

/-- `GetLibraryPath`, with `runtime.GOOS` and `runtime.GOARCH` as the arguments
`system` and `machine` (both are ASCII names). -/
def GetLibraryPath (system machine libDir : String) : Except String String :=
  let osKey := ToLower system
  let osKey :=
    if osKey = "darwin" then "darwin"
    else if ContainsBytes (goBytes osKey) (goBytes "linux") then "linux"
    else if ContainsBytes (goBytes osKey) (goBytes "windows") then "windows"
    else osKey
  match platformMappings osKey machine with
  | some pathInfo => Except.ok (libDir ++ "/" ++ pathInfo.1 ++ "/" ++ pathInfo.2)
  | none => Except.error ("unsupported platform: " ++ osKey ++ " " ++ machine)

/-- The struct `LibSignPDF` as `SignPDFKitSign` fills it, the HTTP client given
by its settings. -/
structure LibSignPDFValue where
  signFn : String → Options → String
  options : Options
  httpClient : ClientSettings
  libPath : String
  libLoaded : Bool

/-- `SignPDFKitSign`. The platform (`system`, `machine`) and the C function
`load_library` (`true` for a return of 1) are arguments; `none` error is `nil`. -/
def SignPDFKitSign (system machine : String) (load_library : String → Bool)
    (signFn : String → Options → String) (options : Options) (libDir : String) :
    Except String LibSignPDFValue :=
  match GetLibraryPath system machine libDir with
  | Except.error err => Except.error err
  | Except.ok libPath =>
    let lib : LibSignPDFValue :=
      { signFn := signFn
        options := options
        httpClient := createHTTPClient
        libPath := libPath
        libLoaded := false }
    if load_library libPath = false then
      Except.error ("failed to load library: " ++ libPath)
    else
      Except.ok { lib with libLoaded := true }

/-! # Theorems -/

set_option maxRecDepth 8000

theorem toLowerRune_cases (c : Char) :
    (65 ≤ c.toNat ∧ c.toNat ≤ 90 ∧ toLowerRune c = Char.ofNat (c.toNat + 32)) ∨
    (¬ (65 ≤ c.toNat ∧ c.toNat ≤ 90) ∧ toLowerRune c = c) := by
  unfold toLowerRune
  by_cases h : 65 ≤ c.toNat ∧ c.toNat ≤ 90
  · left; simp [h]
  · right; simp [h]

theorem char_of_toNat (c : Char) (n : Nat) (h : c.toNat = n) : c = Char.ofNat n := by
  rw [← h, Char.ofNat_toNat]


theorem toLowerRune_eq_p (c : Char) : toLowerRune c = 'p' ↔ (c = 'p' ∨ c = 'P') := by
  rcases toLowerRune_cases c with ⟨h1, h2, h⟩ | ⟨h1, h⟩
  · rw [h]
    generalize hn : c.toNat = n at h1 h2
    have hc := char_of_toNat c n hn
    subst hc
    interval_cases n <;> decide
  · rw [h]
    constructor
    · intro h; left; exact h
    · rintro (h | h)
      · exact h
      · subst h; exact absurd (by decide) h1

theorem toLowerRune_eq_d (c : Char) : toLowerRune c = 'd' ↔ (c = 'd' ∨ c = 'D') := by
  rcases toLowerRune_cases c with ⟨h1, h2, h⟩ | ⟨h1, h⟩
  · rw [h]
    generalize hn : c.toNat = n at h1 h2
    have hc := char_of_toNat c n hn
    subst hc
    interval_cases n <;> decide
  · rw [h]
    constructor
    · intro h; left; exact h
    · rintro (h | h)
      · exact h
      · subst h; exact absurd (by decide) h1

theorem toLowerRune_eq_f (c : Char) : toLowerRune c = 'f' ↔ (c = 'f' ∨ c = 'F') := by
  rcases toLowerRune_cases c with ⟨h1, h2, h⟩ | ⟨h1, h⟩
  · rw [h]
    generalize hn : c.toNat = n at h1 h2
    have hc := char_of_toNat c n hn
    subst hc
    interval_cases n <;> decide
  · rw [h]
    constructor
    · intro h; left; exact h
    · rintro (h | h)
      · exact h
      · subst h; exact absurd (by decide) h1

theorem toLowerRune_eq_dot (c : Char) : toLowerRune c = '.' ↔ c = '.' := by
  rcases toLowerRune_cases c with ⟨h1, h2, h⟩ | ⟨h1, h⟩
  · rw [h]
    generalize hn : c.toNat = n at h1 h2
    have hc := char_of_toNat c n hn
    subst hc
    interval_cases n <;> decide
  · rw [h]

/-- The suffix test of `SignPDF` accepts exactly the paths ending in `.pdf`. -/
theorem hasSuffix_pdf_iff (s : String) :
    HasSuffix (ToLower s) ".pdf" = true ↔ endsWithPdf s := by
  unfold HasSuffix ToLower endsWithPdf
  have hrev : s.data = s.data.reverse.reverse := by simp
  generalize s.data.reverse = r at hrev
  rw [hrev]
  have hlit : (".pdf" : String).data.reverse = ['f', 'd', 'p', '.'] := by decide
  simp only [hlit, List.map_reverse, List.reverse_reverse]
  constructor
  · intro h
    rcases r with _ | ⟨c3, _ | ⟨c2, _ | ⟨c1, _ | ⟨c0, rest⟩⟩⟩⟩
    · simp [List.isPrefixOf] at h
    · simp [List.isPrefixOf] at h
    · simp [List.isPrefixOf] at h
    · simp [List.isPrefixOf] at h
    · simp only [List.map_cons, List.isPrefixOf, Bool.and_eq_true, beq_iff_eq] at h
      obtain ⟨h3, h2, h1, h0, -⟩ := h
      refine ⟨rest.reverse, c1, c2, c3, ?_, ?_, ?_, ?_⟩
      · rw [(toLowerRune_eq_dot c0).1 h0.symm]; simp
      · exact (toLowerRune_eq_p c1).1 h1.symm
      · exact (toLowerRune_eq_d c2).1 h2.symm
      · exact (toLowerRune_eq_f c3).1 h3.symm
  · rintro ⟨pre, a, b, c, hd, ha, hb, hc⟩
    have hr : r = c :: b :: a :: '.' :: pre.reverse := by
      have := congrArg List.reverse hd
      simpa using this
    subst hr
    simp [List.isPrefixOf, (toLowerRune_eq_p a).2 ha, (toLowerRune_eq_d b).2 hb,
      (toLowerRune_eq_f c).2 hc, (toLowerRune_eq_dot '.').2 rfl]

theorem pathsRejected_eq_false_iff (args : SignArgs) :
    pathsRejected args = false ↔ validPath args.InputPath ∧ validPath args.OutputPath := by
  unfold pathsRejected validPath
  rw [← hasSuffix_pdf_iff, ← hasSuffix_pdf_iff]
  simp only [Bool.or_eq_false_iff, Bool.not_eq_false', beq_eq_false_iff_ne, ne_eq]
  tauto


/-! ## The runs of `SignPDF`, branch by branch -/

theorem run_rejected (c : CLib) (j : Json) (lib : LibSignPDF) (args : SignArgs)
    (hr : pathsRejected args = true) :
    SignPDFRun c j lib args = ⟨⟨3, "Input parameters are incorrect"⟩, []⟩ := by
  unfold SignPDFRun
  simp [hr]

theorem run_digest_null (c : CLib) (j : Json) (lib : LibSignPDF) (args : SignArgs)
    (hr : pathsRejected args = false)
    (hd : calculate_digest c (digestArgsOf args.InputPath (resolveOptions args)) = none) :
    SignPDFRun c j lib args =
      ⟨⟨4, "Failed when processing PDF"⟩,
        [Event.calculate_digest (digestArgsOf args.InputPath (resolveOptions args))]⟩ := by
  unfold SignPDFRun
  simp [hr, hd]

theorem run_digest_empty (c : CLib) (j : Json) (lib : LibSignPDF) (args : SignArgs)
    (hr : pathsRejected args = false)
    (hd : calculate_digest c (digestArgsOf args.InputPath (resolveOptions args)) = some "") :
    SignPDFRun c j lib args =
      ⟨⟨4, "Failed when processing PDF"⟩,
        [Event.calculate_digest (digestArgsOf args.InputPath (resolveOptions args))]⟩ := by
  unfold SignPDFRun
  simp [hr, hd]

theorem run_decode_error (c : CLib) (j : Json) (lib : LibSignPDF) (args : SignArgs)
    (preSignStr e : String) (hr : pathsRejected args = false)
    (hd : calculate_digest c (digestArgsOf args.InputPath (resolveOptions args))
      = some preSignStr)
    (hne : preSignStr ≠ "") (hj : j.unmarshalPreSignData preSignStr = Except.error e) :
    SignPDFRun c j lib args =
      ⟨⟨4, "Failed to parse JSON"⟩,
        [Event.calculate_digest (digestArgsOf args.InputPath (resolveOptions args))]⟩ := by
  unfold SignPDFRun
  simp [hr, hd, hne, hj]

theorem run_code_zero (c : CLib) (j : Json) (lib : LibSignPDF) (args : SignArgs)
    (preSignStr : String) (data : PreSignData) (hr : pathsRejected args = false)
    (hd : calculate_digest c (digestArgsOf args.InputPath (resolveOptions args))
      = some preSignStr)
    (hne : preSignStr ≠ "") (hj : j.unmarshalPreSignData preSignStr = Except.ok data)
    (h0 : data.ResponseCode = 0) :
    SignPDFRun c j lib args =
      ⟨if embed_cms c preSignStr
            (getRevocation c j lib (lib.signFn data.Data.Digest lib.options)
              (resolveOptions args).DSS).text args.OutputPath = 0
        then ⟨0, "success"⟩ else ⟨4, "Failed when processing PDF"⟩,
        [Event.calculate_digest (digestArgsOf args.InputPath (resolveOptions args)),
          Event.signFn data.Data.Digest lib.options] ++
        (getRevocation c j lib (lib.signFn data.Data.Digest lib.options)
          (resolveOptions args).DSS).trace ++
        [Event.embed_cms preSignStr
          (getRevocation c j lib (lib.signFn data.Data.Digest lib.options)
            (resolveOptions args).DSS).text args.OutputPath]⟩ := by
  unfold SignPDFRun
  simp only [hr, Bool.false_eq_true, if_false, hd, hne, hj, h0, if_true]
  split_ifs <;> simp

theorem run_code_nonzero (c : CLib) (j : Json) (lib : LibSignPDF) (args : SignArgs)
    (preSignStr : String) (data : PreSignData) (hr : pathsRejected args = false)
    (hd : calculate_digest c (digestArgsOf args.InputPath (resolveOptions args))
      = some preSignStr)
    (hne : preSignStr ≠ "") (hj : j.unmarshalPreSignData preSignStr = Except.ok data)
    (h0 : data.ResponseCode ≠ 0) :
    SignPDFRun c j lib args =
      ⟨if data.ResponseCode = 1 then ⟨1, "Failed to open/read document"⟩
        else if data.ResponseCode = 4 then ⟨4, "Failed when processing PDF"⟩
        else if data.ResponseCode = 5 then ⟨5, "PDF File not found"⟩
        else if data.ResponseCode = 6 then ⟨6, "Visualization Image not found"⟩
        else ⟨4, "Failed when processing PDF"⟩,
        [Event.calculate_digest (digestArgsOf args.InputPath (resolveOptions args))]⟩ := by
  unfold SignPDFRun
  simp only [hr, Bool.false_eq_true, if_false, hd, hne, hj, h0, if_true]
  split_ifs <;> simp

theorem validPath_of_check (s : String)
    (h : (s != "" && HasSuffix (ToLower s) ".pdf") = true) : validPath s := by
  simp only [Bool.and_eq_true, bne_iff_ne, ne_eq] at h
  exact ⟨h.1, (hasSuffix_pdf_iff s).1 h.2⟩

theorem not_validPath_of_check (s : String)
    (h : (s != "" && HasSuffix (ToLower s) ".pdf") = false) : ¬ validPath s := by
  intro hv
  have : (s != "" && HasSuffix (ToLower s) ".pdf") = true := by
    simp only [Bool.and_eq_true, bne_iff_ne, ne_eq]
    exact ⟨hv.1, (hasSuffix_pdf_iff s).2 hv.2⟩
  rw [h] at this
  exact Bool.noConfusion this

/-- C1: when the input or output path is empty or does not end in `.pdf` (any
letter case), `SignPDF` returns exactly code 3 with status "Input parameters are
incorrect" and makes no call at all (engine, callback, HTTP); when both paths are
non-empty and end in `.pdf`, the returned code is never 3. -/
theorem C1_path_validation (c : CLib) (j : Json) (lib : LibSignPDF) (args : SignArgs) :
    ((¬ validPath args.InputPath ∨ ¬ validPath args.OutputPath) →
      (SignPDFRun c j lib args).jsonData = ⟨3, "Input parameters are incorrect"⟩ ∧
      (SignPDFRun c j lib args).trace = [] ∧
      SignPDF c j lib args =
        "\x7b\"response_code\":3,\"response_status\":\"Input parameters are incorrect\"\x7d") ∧
    ((validPath args.InputPath ∧ validPath args.OutputPath) →
      (SignPDFRun c j lib args).jsonData.response_code ≠ 3) := by
  constructor
  · intro h
    have hr : pathsRejected args = true := by
      cases hp : pathsRejected args
      · exact absurd ((pathsRejected_eq_false_iff args).1 hp) (by tauto)
      · rfl
    have hrun : SignPDFRun c j lib args = ⟨⟨3, "Input parameters are incorrect"⟩, []⟩ := by
      unfold SignPDFRun
      simp [hr]
    refine ⟨by rw [hrun], by rw [hrun], ?_⟩
    unfold SignPDF
    rw [hrun]
    decide
  · intro h
    have hr : pathsRejected args = false := (pathsRejected_eq_false_iff args).2 h
    cases hd : calculate_digest c (digestArgsOf args.InputPath (resolveOptions args)) with
    | none => rw [run_digest_null c j lib args hr hd]; simp
    | some preSignStr =>
      by_cases hne : preSignStr = ""
      · subst hne
        rw [run_digest_empty c j lib args hr hd]; simp
      · cases hj : j.unmarshalPreSignData preSignStr with
        | error e => rw [run_decode_error c j lib args preSignStr e hr hd hne hj]; simp
        | ok data =>
          by_cases h0 : data.ResponseCode = 0
          · rw [run_code_zero c j lib args preSignStr data hr hd hne hj h0]
            dsimp only
            split_ifs <;> decide
          · rw [run_code_nonzero c j lib args preSignStr data hr hd hne hj h0]
            dsimp only
            split_ifs <;> decide

/-- C1 at concrete requests: a `.txt` output path is rejected with no call, and
`in.PDF`/`out.pdf` is not answered with code 3. -/
theorem C1_path_validation_witness :
    ((SignPDFRun (stubEngine (some pkgSuccess) none 0) stubJson stubLib txtArgs).jsonData
        = ⟨3, "Input parameters are incorrect"⟩ ∧
      (SignPDFRun (stubEngine (some pkgSuccess) none 0) stubJson stubLib txtArgs).trace = []) ∧
    (SignPDFRun (stubEngine (some pkgSuccess) none 0) stubJson stubLib
      plainArgs).jsonData.response_code ≠ 3 := by
  have h1 := (C1_path_validation (stubEngine (some pkgSuccess) none 0) stubJson stubLib
    txtArgs).1 (Or.inr (not_validPath_of_check _ (by decide)))
  have h2 := (C1_path_validation (stubEngine (some pkgSuccess) none 0) stubJson stubLib
    plainArgs).2 ⟨validPath_of_check _ (by decide), validPath_of_check _ (by decide)⟩
  exact ⟨⟨h1.1, h1.2.1⟩, h2⟩

/-! ## Engine response codes -/

/-- C2: for a request that passes path validation and a digest reply that decodes
to a package with response code `c ≠ 0`, the result is the table entry: 1, 4, 5
and 6 map to themselves with their status texts, every other code to 4 "Failed
when processing PDF"; the only call made is the digest call (no signing callback,
no revocation call, no HTTP, no embed). -/
theorem C2_engine_code_dispatch (c : CLib) (j : Json) (lib : LibSignPDF) (args : SignArgs)
    (preSignStr : String) (data : PreSignData)
    (hv : validPath args.InputPath ∧ validPath args.OutputPath)
    (hd : calculate_digest c (digestArgsOf args.InputPath (resolveOptions args))
      = some preSignStr)
    (hne : preSignStr ≠ "")
    (hj : j.unmarshalPreSignData preSignStr = Except.ok data)
    (hc : data.ResponseCode ≠ 0) :
    (data.ResponseCode = 1 →
      (SignPDFRun c j lib args).jsonData = ⟨1, "Failed to open/read document"⟩) ∧
    (data.ResponseCode = 4 →
      (SignPDFRun c j lib args).jsonData = ⟨4, "Failed when processing PDF"⟩) ∧
    (data.ResponseCode = 5 →
      (SignPDFRun c j lib args).jsonData = ⟨5, "PDF File not found"⟩) ∧
    (data.ResponseCode = 6 →
      (SignPDFRun c j lib args).jsonData = ⟨6, "Visualization Image not found"⟩) ∧
    (data.ResponseCode ≠ 1 ∧ data.ResponseCode ≠ 4 ∧ data.ResponseCode ≠ 5 ∧
        data.ResponseCode ≠ 6 →
      (SignPDFRun c j lib args).jsonData = ⟨4, "Failed when processing PDF"⟩) ∧
    (SignPDFRun c j lib args).trace =
      [Event.calculate_digest (digestArgsOf args.InputPath (resolveOptions args))] := by
  have hr : pathsRejected args = false := (pathsRejected_eq_false_iff args).2 hv
  rw [run_code_nonzero c j lib args preSignStr data hr hd hne hj hc]
  refine ⟨?_, ?_, ?_, ?_, ?_, rfl⟩
  · intro h; simp [h]
  · intro h; simp [h]
  · intro h; simp [h]
  · intro h; simp [h]
  · rintro ⟨h1, h4, h5, h6⟩; simp [h1, h4, h5, h6]

/-- C2 at an engine that reports code 5: the result is code 5 "PDF File not
found" and only the digest call was made. -/
theorem C2_engine_code_dispatch_witness :
    (SignPDFRun (stubEngine (some pkgNotFound) none 0) stubJson stubLib plainArgs).jsonData
      = ⟨5, "PDF File not found"⟩ ∧
    (SignPDFRun (stubEngine (some pkgNotFound) none 0) stubJson stubLib plainArgs).trace
      = [Event.calculate_digest (digestArgsOf "in.PDF" DefaultSignOptions)] := by
  have h := C2_engine_code_dispatch (stubEngine (some pkgNotFound) none 0) stubJson stubLib
    plainArgs pkgNotFound ⟨5, "PDF File not found", zeroData⟩
    ⟨validPath_of_check _ (by decide), validPath_of_check _ (by decide)⟩ rfl (by decide) rfl
    (by decide)
  exact ⟨h.2.2.1 rfl, h.2.2.2.2.2⟩

/-! ## Failures of the digest step -/

/-- C3, as the code has it: for a request that passes path validation, a null
digest reply and an empty digest reply both give code 4 "Failed when processing
PDF"; a reply that fails JSON decoding gives code 4 with the status "Failed to
parse JSON"; in all three the only call made is the digest call (no signing
callback, no revocation call, no embed). -/
theorem C3_digest_failures (c : CLib) (j : Json) (lib : LibSignPDF) (args : SignArgs)
    (hv : validPath args.InputPath ∧ validPath args.OutputPath) :
    ((calculate_digest c (digestArgsOf args.InputPath (resolveOptions args)) = none ∨
        calculate_digest c (digestArgsOf args.InputPath (resolveOptions args)) = some "") →
      (SignPDFRun c j lib args).jsonData = ⟨4, "Failed when processing PDF"⟩ ∧
      (SignPDFRun c j lib args).trace =
        [Event.calculate_digest (digestArgsOf args.InputPath (resolveOptions args))]) ∧
    (∀ preSignStr e,
      calculate_digest c (digestArgsOf args.InputPath (resolveOptions args))
        = some preSignStr →
      preSignStr ≠ "" →
      j.unmarshalPreSignData preSignStr = Except.error e →
      (SignPDFRun c j lib args).jsonData = ⟨4, "Failed to parse JSON"⟩ ∧
      (SignPDFRun c j lib args).trace =
        [Event.calculate_digest (digestArgsOf args.InputPath (resolveOptions args))]) := by
  have hr : pathsRejected args = false := (pathsRejected_eq_false_iff args).2 hv
  constructor
  · rintro (hd | hd)
    · rw [run_digest_null c j lib args hr hd]; exact ⟨rfl, rfl⟩
    · rw [run_digest_empty c j lib args hr hd]; exact ⟨rfl, rfl⟩
  · intro preSignStr e hd hne hj
    rw [run_decode_error c j lib args preSignStr e hr hd hne hj]; exact ⟨rfl, rfl⟩

/-- C3 at an unloaded engine (null reply) and at a reply that is not JSON. -/
theorem C3_digest_failures_witness :
    (SignPDFRun ⟨none, none, none⟩ stubJson stubLib plainArgs).jsonData
      = ⟨4, "Failed when processing PDF"⟩ ∧
    (SignPDFRun (stubEngine (some "not json") none 0) stubJson stubLib plainArgs).jsonData
      = ⟨4, "Failed to parse JSON"⟩ ∧
    (SignPDFRun (stubEngine (some "not json") none 0) stubJson stubLib plainArgs).trace
      = [Event.calculate_digest (digestArgsOf "in.PDF" DefaultSignOptions)] := by
  have h1 := (C3_digest_failures ⟨none, none, none⟩ stubJson stubLib plainArgs
    ⟨validPath_of_check _ (by decide), validPath_of_check _ (by decide)⟩).1 (Or.inl rfl)
  have h2 := (C3_digest_failures (stubEngine (some "not json") none 0) stubJson stubLib
    plainArgs ⟨validPath_of_check _ (by decide), validPath_of_check _ (by decide)⟩).2
    "not json" "invalid character" rfl (by decide) rfl
  exact ⟨h1.1, h2.1, h2.2⟩

/-- C3 as stated fails: with valid paths and the digest reply `not json`, which
does not decode, the result is not code 4 with "Failed when processing PDF" (its
status is "Failed to parse JSON"). -/
theorem C3_decode_failure_counterexample :
    pathsRejected plainArgs = false ∧
    calculate_digest (stubEngine (some "not json") none 0)
      (digestArgsOf plainArgs.InputPath (resolveOptions plainArgs)) = some "not json" ∧
    stubJson.unmarshalPreSignData "not json" = Except.error "invalid character" ∧
    (SignPDFRun (stubEngine (some "not json") none 0) stubJson stubLib plainArgs).jsonData
      ≠ ⟨4, "Failed when processing PDF"⟩ := by
  refine ⟨by decide, rfl, rfl, ?_⟩
  rw [run_decode_error (stubEngine (some "not json") none 0) stubJson stubLib plainArgs
    "not json" "invalid character" (by decide) rfl (by decide) rfl]
  decide

/-! ## The embed step decides the success path -/

/-- C4: for a request that passes path validation and a digest package with
response code 0, the result is code 0 "success" exactly when the embed call
returns 0; every non-zero return, the `-1` of an unloaded engine included, gives
code 4 "Failed when processing PDF". -/
theorem C4_embed_return_decides (c : CLib) (j : Json) (lib : LibSignPDF) (args : SignArgs)
    (preSignStr : String) (data : PreSignData)
    (hv : validPath args.InputPath ∧ validPath args.OutputPath)
    (hd : calculate_digest c (digestArgsOf args.InputPath (resolveOptions args))
      = some preSignStr)
    (hne : preSignStr ≠ "")
    (hj : j.unmarshalPreSignData preSignStr = Except.ok data)
    (h0 : data.ResponseCode = 0) :
    ((SignPDFRun c j lib args).jsonData = ⟨0, "success"⟩ ↔
      embed_cms c preSignStr
        (getRevocation c j lib (lib.signFn data.Data.Digest lib.options)
          (resolveOptions args).DSS).text args.OutputPath = 0) ∧
    (embed_cms c preSignStr
        (getRevocation c j lib (lib.signFn data.Data.Digest lib.options)
          (resolveOptions args).DSS).text args.OutputPath ≠ 0 →
      (SignPDFRun c j lib args).jsonData = ⟨4, "Failed when processing PDF"⟩) ∧
    (c.embed_cms_ptr = none →
      (SignPDFRun c j lib args).jsonData = ⟨4, "Failed when processing PDF"⟩) := by
  have hr : pathsRejected args = false := (pathsRejected_eq_false_iff args).2 hv
  rw [run_code_zero c j lib args preSignStr data hr hd hne hj h0]
  dsimp only
  refine ⟨?_, ?_, ?_⟩
  · constructor
    · intro h
      by_contra hx
      rw [if_neg hx] at h
      exact absurd h (by decide)
    · intro h; rw [if_pos h]
  · intro h; rw [if_neg h]
  · intro hp
    have : embed_cms c preSignStr
        (getRevocation c j lib (lib.signFn data.Data.Digest lib.options)
          (resolveOptions args).DSS).text args.OutputPath = -1 := by
      unfold embed_cms; rw [hp]
    rw [this, if_neg (by decide)]

/-- C4 at an engine whose embed call returns 0, and at one whose embed call
returns 7. -/
theorem C4_embed_return_decides_witness :
    (SignPDFRun (stubEngine (some pkgSuccess) (some descriptorsText) 0) stubJson stubLib
      plainArgs).jsonData = ⟨0, "success"⟩ ∧
    (SignPDFRun (stubEngine (some pkgSuccess) (some descriptorsText) 7) stubJson stubLib
      plainArgs).jsonData = ⟨4, "Failed when processing PDF"⟩ := by
  have h1 := (C4_embed_return_decides (stubEngine (some pkgSuccess) (some descriptorsText) 0)
    stubJson stubLib plainArgs pkgSuccess ⟨0, "success", { zeroData with Digest := "3q2+7w==" }⟩
    ⟨validPath_of_check _ (by decide), validPath_of_check _ (by decide)⟩ rfl (by decide) rfl
    rfl).1.2 rfl
  have h2 := (C4_embed_return_decides (stubEngine (some pkgSuccess) (some descriptorsText) 7)
    stubJson stubLib plainArgs pkgSuccess ⟨0, "success", { zeroData with Digest := "3q2+7w==" }⟩
    ⟨validPath_of_check _ (by decide), validPath_of_check _ (by decide)⟩ rfl (by decide) rfl
    rfl).2.1 (by decide)
  exact ⟨h1, h2⟩

/-! ## Revocation step: internal failure and the DSS switch -/

theorem getRevocation_null (c : CLib) (j : Json) (lib : LibSignPDF) (cms : String) (dss : Int)
    (h : get_revocation_parameters c cms = none) :
    getRevocation c j lib cms dss = ⟨"", none, [Event.get_revocation_parameters cms]⟩ := by
  unfold getRevocation
  simp [h]

theorem getRevocation_empty (c : CLib) (j : Json) (lib : LibSignPDF) (cms : String) (dss : Int)
    (h : get_revocation_parameters c cms = some "") :
    getRevocation c j lib cms dss = ⟨"", none, [Event.get_revocation_parameters cms]⟩ := by
  unfold getRevocation
  simp [h]

theorem getRevocation_decode_error (c : CLib) (j : Json) (lib : LibSignPDF) (cms : String)
    (dss : Int) (s e : String) (h : get_revocation_parameters c cms = some s) (hne : s ≠ "")
    (hj : j.unmarshalRevocationItems s = Except.error e) :
    getRevocation c j lib cms dss =
      ⟨"", some ("failed to parse JSON: " ++ e), [Event.get_revocation_parameters cms]⟩ := by
  unfold getRevocation
  simp [h, hne, hj]

theorem getRevocation_items (c : CLib) (j : Json) (lib : LibSignPDF) (cms : String)
    (dss : Int) (s : String) (items : List RevocationItem)
    (h : get_revocation_parameters c cms = some s) (hne : s ≠ "")
    (hj : j.unmarshalRevocationItems s = Except.ok items) :
    getRevocation c j lib cms dss =
      ⟨j.marshalRevocationData
          (if dss = DSS_YES then
            processRevocationData lib items
              (⟨cms, [], []⟩, [Event.get_revocation_parameters cms])
           else (⟨cms, [], []⟩, [Event.get_revocation_parameters cms])).1,
        none,
        (if dss = DSS_YES then
            processRevocationData lib items
              (⟨cms, [], []⟩, [Event.get_revocation_parameters cms])
           else (⟨cms, [], []⟩, [Event.get_revocation_parameters cms])).2⟩ := by
  unfold getRevocation
  simp [h, hne, hj]

/-- C5, as the code has it: on the success path (valid paths, digest package with
code 0), when the revocation step fails internally (the engine gives null, the
empty string, or a text that does not decode to a descriptor list) the sign
operation is not aborted: embed is still called, once, with the pre-sign text and
the output path, and its return decides the result; the revocation payload handed
to embed is the empty string. -/
theorem C5_revocation_failure_payload (c : CLib) (j : Json) (lib : LibSignPDF)
    (args : SignArgs) (preSignStr : String) (data : PreSignData)
    (hv : validPath args.InputPath ∧ validPath args.OutputPath)
    (hd : calculate_digest c (digestArgsOf args.InputPath (resolveOptions args))
      = some preSignStr)
    (hne : preSignStr ≠ "")
    (hj : j.unmarshalPreSignData preSignStr = Except.ok data)
    (h0 : data.ResponseCode = 0)
    (hfail :
      get_revocation_parameters c (lib.signFn data.Data.Digest lib.options) = none ∨
      get_revocation_parameters c (lib.signFn data.Data.Digest lib.options) = some "" ∨
      ∃ s e, get_revocation_parameters c (lib.signFn data.Data.Digest lib.options) = some s ∧
        s ≠ "" ∧ j.unmarshalRevocationItems s = Except.error e) :
    (SignPDFRun c j lib args).trace =
      [Event.calculate_digest (digestArgsOf args.InputPath (resolveOptions args)),
        Event.signFn data.Data.Digest lib.options,
        Event.get_revocation_parameters (lib.signFn data.Data.Digest lib.options),
        Event.embed_cms preSignStr "" args.OutputPath] ∧
    (SignPDFRun c j lib args).jsonData =
      (if embed_cms c preSignStr "" args.OutputPath = 0 then ⟨0, "success"⟩
        else ⟨4, "Failed when processing PDF"⟩) := by
  have hr : pathsRejected args = false := (pathsRejected_eq_false_iff args).2 hv
  rw [run_code_zero c j lib args preSignStr data hr hd hne hj h0]
  rcases hfail with h | h | ⟨s, e, h, hs, he⟩
  · rw [getRevocation_null c j lib _ _ h]; exact ⟨rfl, rfl⟩
  · rw [getRevocation_empty c j lib _ _ h]; exact ⟨rfl, rfl⟩
  · rw [getRevocation_decode_error c j lib _ _ s e h hs he]; exact ⟨rfl, rfl⟩

/-- C5 at an engine whose revocation call returns null: embed receives the empty
string and the run still ends in success. -/
theorem C5_revocation_failure_payload_witness :
    (SignPDFRun (stubEngine (some pkgSuccess) none 0) stubJson stubLib plainArgs).trace =
      [Event.calculate_digest (digestArgsOf "in.PDF" DefaultSignOptions),
        Event.signFn "3q2+7w==" stubLib.options,
        Event.get_revocation_parameters "Q01T",
        Event.embed_cms pkgSuccess "" "out.pdf"] ∧
    (SignPDFRun (stubEngine (some pkgSuccess) none 0) stubJson stubLib plainArgs).jsonData =
      ⟨0, "success"⟩ := by
  have h := C5_revocation_failure_payload (stubEngine (some pkgSuccess) none 0) stubJson
    stubLib plainArgs pkgSuccess ⟨0, "success", { zeroData with Digest := "3q2+7w==" }⟩
    ⟨validPath_of_check _ (by decide), validPath_of_check _ (by decide)⟩ rfl (by decide) rfl
    rfl (Or.inl rfl)
  exact ⟨h.1, h.2⟩

/-- C5 as stated fails: with the revocation call returning null on the success
path, the payload of the embed call is the empty string, which is not the
serialized bundle with the container and two empty sequences. -/
theorem C5_degraded_bundle_counterexample :
    get_revocation_parameters (stubEngine (some pkgSuccess) none 0) "Q01T" = none ∧
    (SignPDFRun (stubEngine (some pkgSuccess) none 0) stubJson stubLib plainArgs).trace =
      [Event.calculate_digest (digestArgsOf "in.PDF" DefaultSignOptions),
        Event.signFn "3q2+7w==" stubLib.options,
        Event.get_revocation_parameters "Q01T",
        Event.embed_cms pkgSuccess "" "out.pdf"] ∧
    stubJson.marshalRevocationData ⟨"Q01T", [], []⟩ =
      "\x7b\"cms\":\"Q01T\",\"ocsp\":[],\"crl\":[]\x7d" ∧
    ("" : String) ≠ stubJson.marshalRevocationData ⟨"Q01T", [], []⟩ := by
  refine ⟨rfl, ?_, by decide, by decide⟩
  rw [run_code_zero (stubEngine (some pkgSuccess) none 0) stubJson stubLib plainArgs
    pkgSuccess ⟨0, "success", { zeroData with Digest := "3q2+7w==" }⟩ (by decide) rfl
    (by decide) rfl rfl]
  rfl

/-! ## A success package without a digest -/

/-- C6, as the code has it: for a request that passes path validation and a digest
package with response code 0 and an empty (or absent, hence empty) digest,
`SignPDF` does not inspect the digest: it hands the empty digest to the signing
callback, goes on to revocation and embed, and returns code 0 "success" exactly
when embed returns 0 and code 4 otherwise. -/
theorem C6_empty_digest_not_checked (c : CLib) (j : Json) (lib : LibSignPDF)
    (args : SignArgs) (preSignStr : String) (data : PreSignData)
    (hv : validPath args.InputPath ∧ validPath args.OutputPath)
    (hd : calculate_digest c (digestArgsOf args.InputPath (resolveOptions args))
      = some preSignStr)
    (hne : preSignStr ≠ "")
    (hj : j.unmarshalPreSignData preSignStr = Except.ok data)
    (h0 : data.ResponseCode = 0)
    (hdig : data.Data.Digest = "") :
    (SignPDFRun c j lib args).trace =
      [Event.calculate_digest (digestArgsOf args.InputPath (resolveOptions args)),
        Event.signFn "" lib.options] ++
      (getRevocation c j lib (lib.signFn "" lib.options) (resolveOptions args).DSS).trace ++
      [Event.embed_cms preSignStr
        (getRevocation c j lib (lib.signFn "" lib.options) (resolveOptions args).DSS).text
        args.OutputPath] ∧
    (SignPDFRun c j lib args).jsonData =
      (if embed_cms c preSignStr
          (getRevocation c j lib (lib.signFn "" lib.options) (resolveOptions args).DSS).text
          args.OutputPath = 0
        then ⟨0, "success"⟩ else ⟨4, "Failed when processing PDF"⟩) := by
  have hr : pathsRejected args = false := (pathsRejected_eq_false_iff args).2 hv
  rw [run_code_zero c j lib args preSignStr data hr hd hne hj h0, hdig]
  exact ⟨rfl, rfl⟩

/-- C6 at a success package without a digest and an engine whose embed call
returns 0: the callback receives the empty digest and the result is success. -/
theorem C6_empty_digest_not_checked_witness :
    (SignPDFRun (stubEngine (some pkgNoDigest) (some descriptorsText) 0) stubJson stubLib
      plainArgs).trace.take 2 =
      [Event.calculate_digest (digestArgsOf "in.PDF" DefaultSignOptions),
        Event.signFn "" stubLib.options] ∧
    (SignPDFRun (stubEngine (some pkgNoDigest) (some descriptorsText) 0) stubJson stubLib
      plainArgs).jsonData = ⟨0, "success"⟩ := by
  have h := C6_empty_digest_not_checked
    (stubEngine (some pkgNoDigest) (some descriptorsText) 0) stubJson stubLib plainArgs
    pkgNoDigest ⟨0, "success", zeroData⟩
    ⟨validPath_of_check _ (by decide), validPath_of_check _ (by decide)⟩ rfl (by decide) rfl
    rfl rfl
  exact ⟨by rw [h.1]; rfl, h.2⟩

/-- C6 as stated fails: with valid paths, a package with code 0 and an empty
digest, and an embed call that returns 0, the returned code is 0, not 4. -/
theorem C6_empty_digest_counterexample :
    pathsRejected plainArgs = false ∧
    stubJson.unmarshalPreSignData pkgNoDigest = Except.ok ⟨0, "success", zeroData⟩ ∧
    zeroData.Digest = "" ∧
    (SignPDFRun (stubEngine (some pkgNoDigest) (some descriptorsText) 0) stubJson stubLib
      plainArgs).jsonData.response_code = 0 ∧
    (SignPDFRun (stubEngine (some pkgNoDigest) (some descriptorsText) 0) stubJson stubLib
      plainArgs).jsonData.response_code ≠ 4 := by
  have hrun : (SignPDFRun (stubEngine (some pkgNoDigest) (some descriptorsText) 0) stubJson
      stubLib plainArgs).jsonData = ⟨0, "success"⟩ := by
    rw [run_code_zero (stubEngine (some pkgNoDigest) (some descriptorsText) 0) stubJson
      stubLib plainArgs pkgNoDigest ⟨0, "success", zeroData⟩ (by decide) rfl (by decide) rfl
      rfl]
    rfl
  refine ⟨by decide, rfl, rfl, ?_, ?_⟩
  · rw [hrun]
  · rw [hrun]; decide

/-! ## The revocation loop as two independent filter-maps -/

theorem processOCSPItem_bundle (lib : LibSignPDF) (item : RevocationItem) (st : RevState)
    (ht : item.Typ = "ocsp") :
    (processOCSPItem lib item st).1 =
      { st.1 with OCSP := st.1.OCSP ++ (ocspEvidence lib.httpClient item).toList } := by
  unfold processOCSPItem ocspEvidence
  rw [if_pos ht]
  cases DecodeString item.Request with
  | none => simp
  | some req =>
    dsimp only
    cases lib.httpClient.Post item.URL "application/ocsp-request" req with
    | transportError => simp
    | response status body =>
      by_cases hs : status < 200 ∨ status ≥ 300
      · have hs2 : ¬ (200 ≤ status ∧ status < 300) := by omega
        cases body <;> simp [hs, hs2]
      · have hs2 : 200 ≤ status ∧ status < 300 := by omega
        cases body <;> simp [hs, hs2]

theorem processCRLItem_bundle (lib : LibSignPDF) (item : RevocationItem) (st : RevState)
    (ht : item.Typ = "crl") :
    (processCRLItem lib item st).1 =
      { st.1 with CRL := st.1.CRL ++ (crlEvidence lib.httpClient item).toList } := by
  unfold processCRLItem crlEvidence
  rw [if_pos ht]
  dsimp only
  cases lib.httpClient.Get item.URL with
  | transportError => simp
  | response status body =>
    by_cases hs : status < 200 ∨ status ≥ 300
    · have hs2 : ¬ (200 ≤ status ∧ status < 300) := by omega
      cases body <;> simp [hs, hs2]
    · have hs2 : 200 ≤ status ∧ status < 300 := by omega
      cases body <;> simp [hs, hs2]

theorem ocspEvidence_of_not_ocsp (client : HttpClient) (item : RevocationItem)
    (ht : item.Typ ≠ "ocsp") : ocspEvidence client item = none := by
  unfold ocspEvidence
  rw [if_neg ht]

theorem crlEvidence_of_not_crl (client : HttpClient) (item : RevocationItem)
    (ht : item.Typ ≠ "crl") : crlEvidence client item = none := by
  unfold crlEvidence
  rw [if_neg ht]

theorem processRevocationData_bundle (lib : LibSignPDF) (items : List RevocationItem) :
    ∀ st : RevState,
      (processRevocationData lib items st).1 =
        ⟨st.1.CMS, st.1.OCSP ++ items.filterMap (ocspEvidence lib.httpClient),
          st.1.CRL ++ items.filterMap (crlEvidence lib.httpClient)⟩ := by
  induction items with
  | nil => intro st; simp [processRevocationData]
  | cons item rest ih =>
    intro st
    have hstep : processRevocationData lib (item :: rest) st =
        processRevocationData lib rest
          (if item.Typ = "ocsp" then processOCSPItem lib item st
            else if item.Typ = "crl" then processCRLItem lib item st else st) := by
      simp [processRevocationData]
    rw [hstep, ih]
    by_cases ho : item.Typ = "ocsp"
    · have hc : item.Typ ≠ "crl" := by rw [ho]; decide
      have hcrl := crlEvidence_of_not_crl lib.httpClient item hc
      rw [if_pos ho, processOCSPItem_bundle lib item st ho]
      cases he : ocspEvidence lib.httpClient item <;>
        simp [List.filterMap_cons, he, hcrl]
    · have hocsp := ocspEvidence_of_not_ocsp lib.httpClient item ho
      rw [if_neg ho]
      by_cases hc : item.Typ = "crl"
      · rw [if_pos hc, processCRLItem_bundle lib item st hc]
        cases he : crlEvidence lib.httpClient item <;>
          simp [List.filterMap_cons, he, hocsp]
      · have hcrl := crlEvidence_of_not_crl lib.httpClient item hc
        rw [if_neg hc]
        simp [List.filterMap_cons, hocsp, hcrl]

/-- C8: the revocation loop builds the OCSP sequence as the filter-map, in
descriptor order, of the OCSP evidence (base64 of the body, for `ocsp` descriptors
with a valid base64 request, a 2xx answer to the POST and a readable body) and,
independently, the CRL sequence as the filter-map of the CRL evidence (GET, 2xx,
readable body, `extractCRLDER`, base64); the container is left alone; with DSS
enabled this is the bundle `getRevocation` serializes; and three OCSP descriptors
whose second gets a non-2xx answer yield exactly the first and the third entry. -/
theorem C8_revocation_sequences (lib : LibSignPDF) (items : List RevocationItem)
    (st : RevState) :
    (processRevocationData lib items st).1.OCSP =
      st.1.OCSP ++ items.filterMap (ocspEvidence lib.httpClient) ∧
    (processRevocationData lib items st).1.CRL =
      st.1.CRL ++ items.filterMap (crlEvidence lib.httpClient) ∧
    (processRevocationData lib items st).1.CMS = st.1.CMS ∧
    (∀ (c : CLib) (j : Json) (cms s : String),
      get_revocation_parameters c cms = some s → s ≠ "" →
      j.unmarshalRevocationItems s = Except.ok items →
      (getRevocation c j lib cms DSS_YES).text =
        j.marshalRevocationData
          ⟨cms, items.filterMap (ocspEvidence lib.httpClient),
            items.filterMap (crlEvidence lib.httpClient)⟩) ∧
    (∀ (a b d : RevocationItem) (ea ed : String) (req : Bytes) (status : Int)
        (body : Option Bytes),
      items = [a, b, d] →
      ocspEvidence lib.httpClient a = some ea →
      b.Typ = "ocsp" → DecodeString b.Request = some req →
      lib.httpClient.Post b.URL "application/ocsp-request" req
        = HttpReply.response status body →
      (status < 200 ∨ 300 ≤ status) →
      ocspEvidence lib.httpClient d = some ed →
      (processRevocationData lib items st).1.OCSP = st.1.OCSP ++ [ea, ed]) := by
  have hb := processRevocationData_bundle lib items st
  refine ⟨by rw [hb], by rw [hb], by rw [hb], ?_, ?_⟩
  · intro c j cms s h hne hj
    rw [getRevocation_items c j lib cms DSS_YES s items h hne hj]
    simp only [if_true]
    rw [processRevocationData_bundle]
    simp
  · intro a b d ea ed req status body hitems ha hbt hreq hpost hstatus hd
    have hbnone : ocspEvidence lib.httpClient b = none := by
      unfold ocspEvidence
      rw [if_pos hbt, hreq]
      dsimp only
      rw [hpost]
      have hs2 : ¬ (200 ≤ status ∧ status < 300) := by omega
      cases body <;> simp [hs2]
    rw [hb, hitems]
    simp [List.filterMap_cons, ha, hbnone, hd]

/-- C8 at three OCSP descriptors whose second is answered with 503: the sequence
holds the base64 of the first and of the third body, in that order. -/
theorem C8_revocation_sequences_witness :
    (processRevocationData stubLib threeOcsp (⟨"Q01T", [], []⟩, [])).1.OCSP
      = ["YQ==", "Yw=="] := by
  have h := (C8_revocation_sequences stubLib threeOcsp (⟨"Q01T", [], []⟩, [])).2.2.2.2
    ⟨"ocsp", "http://ocsp.test/a", "AQI="⟩ ⟨"ocsp", "http://ocsp.test/down", "AQI="⟩
    ⟨"ocsp", "http://ocsp.test/c", "AQI="⟩ "YQ==" "Yw==" [1, 2] 503 (some [])
    rfl (by decide) rfl (by decide) (by decide) (by decide) (by decide)
  exact h

/-- C9: with the DSS flag not `DSS_YES`, for every container, every descriptor
list the engine returns and every HTTP responder, `getRevocation` returns the
serialized bundle with the container unchanged and both sequences empty, without
error, and its only call is the engine descriptor call (no HTTP POST or GET); on
the success path of `SignPDF` this text is the payload of the embed call. -/
theorem C9_dss_disabled (c : CLib) (j : Json) (lib : LibSignPDF) (cms : String) (dss : Int)
    (s : String) (items : List RevocationItem)
    (hdss : dss ≠ DSS_YES)
    (h : get_revocation_parameters c cms = some s) (hne : s ≠ "")
    (hj : j.unmarshalRevocationItems s = Except.ok items) :
    (getRevocation c j lib cms dss).text = j.marshalRevocationData ⟨cms, [], []⟩ ∧
    (getRevocation c j lib cms dss).err = none ∧
    (getRevocation c j lib cms dss).trace = [Event.get_revocation_parameters cms] ∧
    (∀ (args : SignArgs) (preSignStr : String) (data : PreSignData),
      validPath args.InputPath ∧ validPath args.OutputPath →
      calculate_digest c (digestArgsOf args.InputPath (resolveOptions args))
        = some preSignStr →
      preSignStr ≠ "" →
      j.unmarshalPreSignData preSignStr = Except.ok data →
      data.ResponseCode = 0 →
      lib.signFn data.Data.Digest lib.options = cms →
      (resolveOptions args).DSS = dss →
      (SignPDFRun c j lib args).trace =
        [Event.calculate_digest (digestArgsOf args.InputPath (resolveOptions args)),
          Event.signFn data.Data.Digest lib.options,
          Event.get_revocation_parameters cms,
          Event.embed_cms preSignStr (j.marshalRevocationData ⟨cms, [], []⟩)
            args.OutputPath] ∧
      (SignPDFRun c j lib args).jsonData =
        (if embed_cms c preSignStr (j.marshalRevocationData ⟨cms, [], []⟩) args.OutputPath = 0
          then ⟨0, "success"⟩ else ⟨4, "Failed when processing PDF"⟩)) := by
  have hg : getRevocation c j lib cms dss =
      ⟨j.marshalRevocationData ⟨cms, [], []⟩, none, [Event.get_revocation_parameters cms]⟩ := by
    rw [getRevocation_items c j lib cms dss s items h hne hj]
    simp [hdss]
  refine ⟨by rw [hg], by rw [hg], by rw [hg], ?_⟩
  intro args preSignStr data hv hd hpne hpj h0 hcms hopt
  have hr : pathsRejected args = false := (pathsRejected_eq_false_iff args).2 hv
  rw [run_code_zero c j lib args preSignStr data hr hd hpne hpj h0, hcms, hopt, hg]
  exact ⟨rfl, rfl⟩

/-- C9 at a request with DSS unset and an engine that returns four descriptors:
the engine descriptor call is the only call of `getRevocation`, and embed receives
the bundle with empty sequences. -/
theorem C9_dss_disabled_witness :
    (getRevocation (stubEngine (some pkgSuccess) (some descriptorsText) 0) stubJson stubLib
      "Q01T" DSS_NO).trace = [Event.get_revocation_parameters "Q01T"] ∧
    (SignPDFRun (stubEngine (some pkgSuccess) (some descriptorsText) 0) stubJson stubLib
      plainArgs).trace =
      [Event.calculate_digest (digestArgsOf "in.PDF" DefaultSignOptions),
        Event.signFn "3q2+7w==" stubLib.options,
        Event.get_revocation_parameters "Q01T",
        Event.embed_cms pkgSuccess "\x7b\"cms\":\"Q01T\",\"ocsp\":[],\"crl\":[]\x7d" "out.pdf"] ∧
    (SignPDFRun (stubEngine (some pkgSuccess) (some descriptorsText) 0) stubJson stubLib
      plainArgs).jsonData = ⟨0, "success"⟩ := by
  have h := C9_dss_disabled (stubEngine (some pkgSuccess) (some descriptorsText) 0) stubJson
    stubLib "Q01T" DSS_NO descriptorsText stubDescriptors (by decide) rfl (by decide) rfl
  have h2 := h.2.2.2 plainArgs pkgSuccess ⟨0, "success", { zeroData with Digest := "3q2+7w==" }⟩
    ⟨validPath_of_check _ (by decide), validPath_of_check _ (by decide)⟩ rfl (by decide) rfl
    rfl rfl rfl
  refine ⟨h.2.2.1, ?_, h2.2⟩
  rw [h2.1]
  decide

/-! ## Default resolution -/

theorem ifSet_keeps {α β : Type} (P : SignOptions → β) (p : Option α)
    (assign : α → SignOptions → SignOptions) (opts : SignOptions)
    (h : ∀ v, P (assign v opts) = P opts) : P (ifSet p assign opts) = P opts := by
  cases p with
  | none => rfl
  | some v => exact h v

theorem ifSet_assigns {α : Type} (P : SignOptions → α) (p : Option α)
    (assign : α → SignOptions → SignOptions) (opts : SignOptions)
    (h : ∀ v, P (assign v opts) = v) : P (ifSet p assign opts) = p.getD (P opts) := by
  cases p with
  | none => rfl
  | some v => exact h v

theorem resolveOptions_ImagePath (args : SignArgs) :
    (resolveOptions args).ImagePath = args.ImagePath.getD "example.png" := by
  unfold resolveOptions
  try simp only [ifSet_keeps SignOptions.ImagePath, implies_true]
  rw [ifSet_assigns SignOptions.ImagePath _ _ _ (fun _ => rfl)]
  try simp only [ifSet_keeps SignOptions.ImagePath, implies_true]
  rfl

theorem resolveOptions_URL (args : SignArgs) :
    (resolveOptions args).URL = args.URL.getD "signpdfkit.com" := by
  unfold resolveOptions
  try simp only [ifSet_keeps SignOptions.URL, implies_true]
  rw [ifSet_assigns SignOptions.URL _ _ _ (fun _ => rfl)]
  try simp only [ifSet_keeps SignOptions.URL, implies_true]
  rfl

theorem resolveOptions_Location (args : SignArgs) :
    (resolveOptions args).Location = args.Location.getD "Jakarta" := by
  unfold resolveOptions
  try simp only [ifSet_keeps SignOptions.Location, implies_true]
  rw [ifSet_assigns SignOptions.Location _ _ _ (fun _ => rfl)]
  try simp only [ifSet_keeps SignOptions.Location, implies_true]
  rfl

theorem resolveOptions_Reason (args : SignArgs) :
    (resolveOptions args).Reason = args.Reason.getD "Need to sign" := by
  unfold resolveOptions
  try simp only [ifSet_keeps SignOptions.Reason, implies_true]
  rw [ifSet_assigns SignOptions.Reason _ _ _ (fun _ => rfl)]
  try simp only [ifSet_keeps SignOptions.Reason, implies_true]
  rfl

theorem resolveOptions_ContactInfo (args : SignArgs) :
    (resolveOptions args).ContactInfo = args.ContactInfo.getD "signpdfkit@gmail.com" := by
  unfold resolveOptions
  try simp only [ifSet_keeps SignOptions.ContactInfo, implies_true]
  rw [ifSet_assigns SignOptions.ContactInfo _ _ _ (fun _ => rfl)]
  try simp only [ifSet_keeps SignOptions.ContactInfo, implies_true]
  rfl

theorem resolveOptions_FieldID (args : SignArgs) :
    (resolveOptions args).FieldID = args.FieldID.getD "SignPDFKit" := by
  unfold resolveOptions
  try simp only [ifSet_keeps SignOptions.FieldID, implies_true]
  rw [ifSet_assigns SignOptions.FieldID _ _ _ (fun _ => rfl)]
  try simp only [ifSet_keeps SignOptions.FieldID, implies_true]
  rfl

theorem resolveOptions_Character (args : SignArgs) :
    (resolveOptions args).Character = args.Character.getD "#" := by
  unfold resolveOptions
  try simp only [ifSet_keeps SignOptions.Character, implies_true]
  rw [ifSet_assigns SignOptions.Character _ _ _ (fun _ => rfl)]
  try simp only [ifSet_keeps SignOptions.Character, implies_true]
  rfl

theorem resolveOptions_SignatureType (args : SignArgs) :
    (resolveOptions args).SignatureType = args.SignatureType.getD 0 := by
  unfold resolveOptions
  try simp only [ifSet_keeps SignOptions.SignatureType, implies_true]
  rw [ifSet_assigns SignOptions.SignatureType _ _ _ (fun _ => rfl)]
  try simp only [ifSet_keeps SignOptions.SignatureType, implies_true]
  rfl

theorem resolveOptions_Page (args : SignArgs) :
    (resolveOptions args).Page = args.Page.getD 1 := by
  unfold resolveOptions
  try simp only [ifSet_keeps SignOptions.Page, implies_true]
  rw [ifSet_assigns SignOptions.Page _ _ _ (fun _ => rfl)]
  try simp only [ifSet_keeps SignOptions.Page, implies_true]
  rfl

theorem resolveOptions_FieldType (args : SignArgs) :
    (resolveOptions args).FieldType = args.FieldType.getD 0 := by
  unfold resolveOptions
  try simp only [ifSet_keeps SignOptions.FieldType, implies_true]
  rw [ifSet_assigns SignOptions.FieldType _ _ _ (fun _ => rfl)]
  try simp only [ifSet_keeps SignOptions.FieldType, implies_true]
  rfl

theorem resolveOptions_Visibility (args : SignArgs) :
    (resolveOptions args).Visibility = args.Visibility.getD 0 := by
  unfold resolveOptions
  try simp only [ifSet_keeps SignOptions.Visibility, implies_true]
  rw [ifSet_assigns SignOptions.Visibility _ _ _ (fun _ => rfl)]
  try simp only [ifSet_keeps SignOptions.Visibility, implies_true]
  rfl

theorem resolveOptions_X (args : SignArgs) :
    (resolveOptions args).X = args.X.getD Float64.zero := by
  unfold resolveOptions
  try simp only [ifSet_keeps SignOptions.X, implies_true]
  rw [ifSet_assigns SignOptions.X _ _ _ (fun _ => rfl)]
  try simp only [ifSet_keeps SignOptions.X, implies_true]
  rfl

theorem resolveOptions_Y (args : SignArgs) :
    (resolveOptions args).Y = args.Y.getD Float64.zero := by
  unfold resolveOptions
  try simp only [ifSet_keeps SignOptions.Y, implies_true]
  rw [ifSet_assigns SignOptions.Y _ _ _ (fun _ => rfl)]
  try simp only [ifSet_keeps SignOptions.Y, implies_true]
  rfl

theorem resolveOptions_Width (args : SignArgs) :
    (resolveOptions args).Width = args.Width.getD Float64.fifty := by
  unfold resolveOptions
  try simp only [ifSet_keeps SignOptions.Width, implies_true]
  rw [ifSet_assigns SignOptions.Width _ _ _ (fun _ => rfl)]
  try simp only [ifSet_keeps SignOptions.Width, implies_true]
  rfl

theorem resolveOptions_Height (args : SignArgs) :
    (resolveOptions args).Height = args.Height.getD Float64.fifty := by
  unfold resolveOptions
  try simp only [ifSet_keeps SignOptions.Height, implies_true]
  rw [ifSet_assigns SignOptions.Height _ _ _ (fun _ => rfl)]
  try simp only [ifSet_keeps SignOptions.Height, implies_true]
  rfl

theorem resolveOptions_DSS (args : SignArgs) :
    (resolveOptions args).DSS = args.DSS.getD 0 := by
  unfold resolveOptions
  try simp only [ifSet_keeps SignOptions.DSS, implies_true]
  rw [ifSet_assigns SignOptions.DSS _ _ _ (fun _ => rfl)]
  try simp only [ifSet_keeps SignOptions.DSS, implies_true]
  rfl

/-- C10: each resolved option is the caller's value when the field is set and the
documented default when it is unset (ImagePath "example.png", URL
"signpdfkit.com", Location "Jakarta", Reason "Need to sign", ContactInfo
"signpdfkit@gmail.com", FieldID "SignPDFKit", Character "#", SignatureType 0 =
SIGNATURE, Page 1, FieldType 0 = ADBE, Visibility 0 = Invisible, X 0, Y 0,
Width 50, Height 50, DSS 0 = DSS_NO), so a field depends on its own argument only;
with every optional field unset the resolved options are `DefaultSignOptions`;
and for valid paths the digest call is the first call and carries exactly these
resolved options (integers through `C.int`, the identity on 32-bit values). -/
theorem C10_default_resolution (args : SignArgs) :
    (resolveOptions args).ImagePath = args.ImagePath.getD "example.png" ∧
    (resolveOptions args).URL = args.URL.getD "signpdfkit.com" ∧
    (resolveOptions args).Location = args.Location.getD "Jakarta" ∧
    (resolveOptions args).Reason = args.Reason.getD "Need to sign" ∧
    (resolveOptions args).ContactInfo = args.ContactInfo.getD "signpdfkit@gmail.com" ∧
    (resolveOptions args).FieldID = args.FieldID.getD "SignPDFKit" ∧
    (resolveOptions args).Character = args.Character.getD "#" ∧
    (resolveOptions args).SignatureType = args.SignatureType.getD 0 ∧
    (resolveOptions args).Page = args.Page.getD 1 ∧
    (resolveOptions args).FieldType = args.FieldType.getD 0 ∧
    (resolveOptions args).Visibility = args.Visibility.getD 0 ∧
    (resolveOptions args).X = args.X.getD Float64.zero ∧
    (resolveOptions args).Y = args.Y.getD Float64.zero ∧
    (resolveOptions args).Width = args.Width.getD Float64.fifty ∧
    (resolveOptions args).Height = args.Height.getD Float64.fifty ∧
    (resolveOptions args).DSS = args.DSS.getD 0 ∧
    (Invisible = 0 ∧ ADBE = 0 ∧ SIGNATURE = 0 ∧ DSS_NO = 0) ∧
    (∀ i o : String, resolveOptions ⟨i, o, none, none, none, none, none, none, none, none, none, none, none, none, none, none, none, none⟩ = DefaultSignOptions) ∧
    (∀ (c : CLib) (j : Json) (lib : LibSignPDF),
      validPath args.InputPath ∧ validPath args.OutputPath →
      (SignPDFRun c j lib args).trace.head? =
        some (Event.calculate_digest
          { input_path := args.InputPath
            image_path := args.ImagePath.getD "example.png"
            url := args.URL.getD "signpdfkit.com"
            location := args.Location.getD "Jakarta"
            reason := args.Reason.getD "Need to sign"
            contact_info := args.ContactInfo.getD "signpdfkit@gmail.com"
            field_id := args.FieldID.getD "SignPDFKit"
            character := args.Character.getD "#"
            signature_type := cInt (args.SignatureType.getD 0)
            page := cInt (args.Page.getD 1)
            field_type := cInt (args.FieldType.getD 0)
            typ := cInt (args.Visibility.getD 0)
            x := args.X.getD Float64.zero
            y := args.Y.getD Float64.zero
            width := args.Width.getD Float64.fifty
            height := args.Height.getD Float64.fifty
            dss := cInt (args.DSS.getD 0)
          })) ∧
    (∀ v : Int, -2147483648 ≤ v → v < 2147483648 → cInt v = v) := by
  refine ⟨resolveOptions_ImagePath args,
    resolveOptions_URL args,
    resolveOptions_Location args,
    resolveOptions_Reason args,
    resolveOptions_ContactInfo args,
    resolveOptions_FieldID args,
    resolveOptions_Character args,
    resolveOptions_SignatureType args,
    resolveOptions_Page args,
    resolveOptions_FieldType args,
    resolveOptions_Visibility args,
    resolveOptions_X args,
    resolveOptions_Y args,
    resolveOptions_Width args,
    resolveOptions_Height args,
    resolveOptions_DSS args,
    ⟨rfl, rfl, rfl, rfl⟩, fun _ _ => rfl, ?_, ?_⟩
  · intro c j lib hv
    have hr : pathsRejected args = false := (pathsRejected_eq_false_iff args).2 hv
    have hhead : (SignPDFRun c j lib args).trace.head? =
        some (Event.calculate_digest (digestArgsOf args.InputPath (resolveOptions args))) := by
      cases hd : calculate_digest c (digestArgsOf args.InputPath (resolveOptions args)) with
      | none => rw [run_digest_null c j lib args hr hd]; rfl
      | some preSignStr =>
        by_cases hne : preSignStr = ""
        · subst hne
          rw [run_digest_empty c j lib args hr hd]; rfl
        · cases hj : j.unmarshalPreSignData preSignStr with
          | error e => rw [run_decode_error c j lib args preSignStr e hr hd hne hj]; rfl
          | ok data =>
            by_cases h0 : data.ResponseCode = 0
            · rw [run_code_zero c j lib args preSignStr data hr hd hne hj h0]; rfl
            · rw [run_code_nonzero c j lib args preSignStr data hr hd hne hj h0]; rfl
    rw [hhead]
    unfold digestArgsOf
    rw [resolveOptions_ImagePath args, resolveOptions_URL args, resolveOptions_Location args, resolveOptions_Reason args, resolveOptions_ContactInfo args, resolveOptions_FieldID args, resolveOptions_Character args, resolveOptions_SignatureType args, resolveOptions_Page args, resolveOptions_FieldType args, resolveOptions_Visibility args, resolveOptions_X args, resolveOptions_Y args, resolveOptions_Width args, resolveOptions_Height args, resolveOptions_DSS args]
  · intro v h1 h2
    unfold cInt
    omega

/-- C10 at a request that sets only the page, to 7, and has valid paths: the
digest call carries page 7 and the documented defaults elsewhere. -/
theorem C10_default_resolution_witness :
    (SignPDFRun (stubEngine (some pkgNotFound) none 0) stubJson stubLib
      pageArgs).trace.head? =
      some (Event.calculate_digest
        { input_path := "in.PDF", image_path := "example.png", url := "signpdfkit.com",
          location := "Jakarta", reason := "Need to sign",
          contact_info := "signpdfkit@gmail.com", field_id := "SignPDFKit", character := "#",
          signature_type := 0, page := 7, field_type := 0, typ := 0, x := Float64.zero,
          y := Float64.zero, width := Float64.fifty, height := Float64.fifty, dss := 0 }) ∧
    cInt 7 = 7 := by
  have h := C10_default_resolution pageArgs
  have h1 := h.2.2.2.2.2.2.2.2.2.2.2.2.2.2.2.2.2.2.1
    (stubEngine (some pkgNotFound) none 0) stubJson stubLib
    ⟨validPath_of_check _ (by decide), validPath_of_check _ (by decide)⟩
  have h2 := h.2.2.2.2.2.2.2.2.2.2.2.2.2.2.2.2.2.2.2 7 (by decide) (by decide)
  exact ⟨h1, h2⟩

/-! ## Base64: decoding undoes encoding -/

theorem decodeMap_encodeSextet (v : Nat) (h : v < 64) :
    decodeMap (encodeSextet v) = some v := by
  have key : ∀ w : Fin 64, decodeMap (encodeSextet w.val) = some w.val := by decide
  exact key ⟨v, h⟩

theorem plainByte_encodeSextet (v : Nat) (h : v < 64) : plainByte (encodeSextet v) = true := by
  have key : ∀ w : Fin 64, plainByte (encodeSextet w.val) = true := by decide
  exact key ⟨v, h⟩

theorem decodeMap_padChar : decodeMap padChar = none := by decide

theorem quantum_three (a b c : Byte) :
    quantumBytes
      [(a.val * 65536 + b.val * 256 + c.val) / 262144 % 64,
        (a.val * 65536 + b.val * 256 + c.val) / 4096 % 64,
        (a.val * 65536 + b.val * 256 + c.val) / 64 % 64,
        (a.val * 65536 + b.val * 256 + c.val) % 64] 3 = [a, b, c] := by
  simp only [quantumBytes, List.getD_cons_zero, List.getD_cons_succ, List.take]
  refine congrArg₂ _ ?_ (congrArg₂ _ ?_ (congrArg₂ _ ?_ rfl)) <;>
    (apply Fin.ext; simp only [Fin.ofNat, Fin.val_mk]; omega)

theorem quantum_two (a b : Byte) :
    quantumBytes
      [(a.val * 65536 + b.val * 256) / 262144 % 64,
        (a.val * 65536 + b.val * 256) / 4096 % 64,
        (a.val * 65536 + b.val * 256) / 64 % 64] 2 = [a, b] := by
  simp only [quantumBytes, List.getD_cons_zero, List.getD_cons_succ, List.getD_nil, List.take]
  refine congrArg₂ _ ?_ (congrArg₂ _ ?_ rfl) <;>
    (apply Fin.ext; simp only [Fin.ofNat, Fin.val_mk]; omega)

theorem quantum_one (a : Byte) :
    quantumBytes [(a.val * 65536) / 262144 % 64, (a.val * 65536) / 4096 % 64] 1 = [a] := by
  simp only [quantumBytes, List.getD_cons_zero, List.getD_cons_succ, List.getD_nil, List.take]
  refine congrArg₂ _ ?_ rfl
  apply Fin.ext; simp only [Fin.ofNat, Fin.val_mk]; omega

theorem decodeLoop_sextet (c : Byte) (src : Bytes) (dbuf : List Nat) (dst : Bytes) (v : Nat)
    (h : decodeMap c = some v) :
    decodeLoop (c :: src) dbuf dst =
      if dbuf.length = 3 then decodeLoop src [] (dst ++ quantumBytes (dbuf ++ [v]) 3)
      else decodeLoop src (dbuf ++ [v]) dst := by
  rw [decodeLoop, h]

theorem padChar_not_newline : ¬ (padChar.val = 10 ∨ padChar.val = 13) := by decide

theorem decodeLoop_pad_two (dbuf : List Nat) (dst : Bytes) (h : dbuf.length = 2) :
    decodeLoop [padChar, padChar] dbuf dst = some (dst ++ quantumBytes dbuf 1) := by
  rw [decodeLoop, decodeMap_padChar]
  simp [padChar_not_newline, h, skipNewlines]

theorem decodeLoop_pad_three (dbuf : List Nat) (dst : Bytes) (h : dbuf.length = 3) :
    decodeLoop [padChar] dbuf dst = some (dst ++ quantumBytes dbuf 2) := by
  rw [decodeLoop, decodeMap_padChar]
  simp [padChar_not_newline, h, skipNewlines]

theorem decodeLoop_encodeBytes (der : Bytes) :
    ∀ dst : Bytes, decodeLoop (encodeBytes der) [] dst = some (dst ++ der) := by
  induction der using encodeBytes.induct with
  | case1 a b c rest ih =>
    intro dst
    rw [encodeBytes]
    try dsimp only
    rw [decodeLoop_sextet _ _ _ _ _ (decodeMap_encodeSextet _ (Nat.mod_lt _ (by decide))),
      if_neg (by simp),
      decodeLoop_sextet _ _ _ _ _ (decodeMap_encodeSextet _ (Nat.mod_lt _ (by decide))),
      if_neg (by simp),
      decodeLoop_sextet _ _ _ _ _ (decodeMap_encodeSextet _ (Nat.mod_lt _ (by decide))),
      if_neg (by simp),
      decodeLoop_sextet _ _ _ _ _ (decodeMap_encodeSextet _ (Nat.mod_lt _ (by decide))),
      if_pos (by simp)]
    simp only [List.nil_append, List.cons_append]
    rw [quantum_three, ih]
    simp
  | case2 a b =>
    intro dst
    rw [encodeBytes]
    try dsimp only
    rw [decodeLoop_sextet _ _ _ _ _ (decodeMap_encodeSextet _ (Nat.mod_lt _ (by decide))),
      if_neg (by simp),
      decodeLoop_sextet _ _ _ _ _ (decodeMap_encodeSextet _ (Nat.mod_lt _ (by decide))),
      if_neg (by simp),
      decodeLoop_sextet _ _ _ _ _ (decodeMap_encodeSextet _ (Nat.mod_lt _ (by decide))),
      if_neg (by simp)]
    simp only [List.nil_append, List.cons_append]
    rw [decodeLoop_pad_three _ _ (by simp), quantum_two]
  | case3 a =>
    intro dst
    rw [encodeBytes]
    try dsimp only
    rw [decodeLoop_sextet _ _ _ _ _ (decodeMap_encodeSextet _ (Nat.mod_lt _ (by decide))),
      if_neg (by simp),
      decodeLoop_sextet _ _ _ _ _ (decodeMap_encodeSextet _ (Nat.mod_lt _ (by decide))),
      if_neg (by simp)]
    simp only [List.nil_append, List.cons_append]
    rw [decodeLoop_pad_two _ _ (by simp), quantum_one]
  | case4 =>
    intro dst
    simp [encodeBytes, decodeLoop]

theorem decodeBytes_encodeBytes (der : Bytes) : decodeBytes (encodeBytes der) = some der := by
  unfold decodeBytes
  rw [decodeLoop_encodeBytes]
  rfl

theorem plainByte_of_mem_encodeBytes (der : Bytes) :
    ∀ x ∈ encodeBytes der, plainByte x = true := by
  induction der using encodeBytes.induct with
  | case1 a b c rest ih =>
    intro x hx
    rw [encodeBytes] at hx
    simp only [List.mem_cons] at hx
    rcases hx with h | h | h | h | h
    · rw [h]; exact plainByte_encodeSextet _ (Nat.mod_lt _ (by decide))
    · rw [h]; exact plainByte_encodeSextet _ (Nat.mod_lt _ (by decide))
    · rw [h]; exact plainByte_encodeSextet _ (Nat.mod_lt _ (by decide))
    · rw [h]; exact plainByte_encodeSextet _ (Nat.mod_lt _ (by decide))
    · exact ih x h
  | case2 a b =>
    intro x hx
    rw [encodeBytes] at hx
    simp only [List.mem_cons, List.not_mem_nil, or_false] at hx
    rcases hx with h | h | h | h
    · rw [h]; exact plainByte_encodeSextet _ (Nat.mod_lt _ (by decide))
    · rw [h]; exact plainByte_encodeSextet _ (Nat.mod_lt _ (by decide))
    · rw [h]; exact plainByte_encodeSextet _ (Nat.mod_lt _ (by decide))
    · rw [h]; decide
  | case3 a =>
    intro x hx
    rw [encodeBytes] at hx
    simp only [List.mem_cons, List.not_mem_nil, or_false] at hx
    rcases hx with h | h | h | h
    · rw [h]; exact plainByte_encodeSextet _ (Nat.mod_lt _ (by decide))
    · rw [h]; exact plainByte_encodeSextet _ (Nat.mod_lt _ (by decide))
    · rw [h]; decide
    · rw [h]; decide
  | case4 =>
    intro x hx
    simp [encodeBytes] at hx

/-! ## Lines of base64 text under `TrimSpace`, `HasPrefix` and `Split` -/

theorem plainByte_facts :
    ∀ b : Byte, plainByte b = true →
      isAsciiSpace b = false ∧ b.val < 128 ∧ b.val ≠ 45 ∧ b.val ≠ 10 := by
  decide

theorem isSpace2_of_ascii_left (a b : Byte) (h : a.val < 128) : isSpace2 a b = false := by
  unfold isSpace2
  have : ¬ a.val = 0xC2 := by omega
  simp [this]

theorem isSpace3_of_ascii_left (a b c : Byte) (h : a.val < 128) : isSpace3 a b c = false := by
  unfold isSpace3
  have h1 : ¬ a.val = 0xE1 := by omega
  have h2 : ¬ a.val = 0xE2 := by omega
  have h3 : ¬ a.val = 0xE3 := by omega
  simp [h1, h2, h3]

theorem isSpace2_of_ascii_right (a b : Byte) (h : b.val < 128) : isSpace2 a b = false := by
  unfold isSpace2
  have h1 : ¬ b.val = 0x85 := by omega
  have h2 : ¬ b.val = 0xA0 := by omega
  simp [h1, h2]

theorem isSpace3_of_ascii_right (a b c : Byte) (h : c.val < 128) : isSpace3 a b c = false := by
  unfold isSpace3
  have h1 : ¬ c.val = 0x80 := by omega
  have h2 : ¬ 0x80 ≤ c.val := by omega
  have h3 : ¬ c.val = 0xA8 := by omega
  have h4 : ¬ c.val = 0xA9 := by omega
  have h5 : ¬ c.val = 0xAF := by omega
  have h6 : ¬ c.val = 0x9F := by omega
  simp [h1, h2, h3, h4, h5, h6]

theorem TrimLeftSpace_plain_head (a : Byte) (s : Bytes) (h : plainByte a = true) :
    TrimLeftSpace (a :: s) = a :: s := by
  obtain ⟨hs, hlt, -, -⟩ := plainByte_facts a h
  rcases s with _ | ⟨b, _ | ⟨c, s3⟩⟩
  · rw [TrimLeftSpace.eq_def]; simp [hs]
  · rw [TrimLeftSpace.eq_def]; simp [hs, isSpace2_of_ascii_left a b hlt]
  · rw [TrimLeftSpace.eq_def]
    simp [hs, isSpace2_of_ascii_left a b hlt, isSpace3_of_ascii_left a b c hlt]

theorem trimRevSpace_plain_head (c : Byte) (s : Bytes) (h : plainByte c = true) :
    trimRevSpace (c :: s) = c :: s := by
  obtain ⟨hs, hlt, -, -⟩ := plainByte_facts c h
  rcases s with _ | ⟨b, _ | ⟨a, s3⟩⟩
  · rw [trimRevSpace.eq_def]; simp [hs]
  · rw [trimRevSpace.eq_def]; simp [hs, isSpace2_of_ascii_right b c hlt]
  · rw [trimRevSpace.eq_def]
    simp [hs, isSpace2_of_ascii_right b c hlt, isSpace3_of_ascii_right a b c hlt]

theorem TrimRightSpace_plain_line (chunk : Bytes) (crlf : Bool)
    (h : ∀ x ∈ chunk, plainByte x = true) :
    TrimRightSpace (chunk ++ crOf crlf) = chunk := by
  unfold TrimRightSpace
  have hstrip : trimRevSpace (chunk ++ crOf crlf).reverse = trimRevSpace chunk.reverse := by
    cases crlf
    · simp [crOf]
    · simp only [crOf, if_true, List.reverse_append, List.reverse_cons, List.reverse_nil,
        List.nil_append, List.singleton_append]
      have h13 : isAsciiSpace (13 : Byte) = true := by decide
      rw [trimRevSpace.eq_def]
      simp [h13]
  rw [hstrip]
  cases hr : chunk.reverse with
  | nil =>
    have : chunk = [] := by simpa using hr
    subst this
    rfl
  | cons x r =>
    have hx : x ∈ chunk := by
      have : x ∈ chunk.reverse := by rw [hr]; exact List.mem_cons_self _ _
      simpa using this
    rw [trimRevSpace_plain_head x r (h x hx), ← hr, List.reverse_reverse]

theorem TrimSpace_plain_line (chunk : Bytes) (crlf : Bool)
    (h : ∀ x ∈ chunk, plainByte x = true) :
    TrimSpace (chunk ++ crOf crlf) = chunk := by
  unfold TrimSpace
  cases chunk with
  | nil =>
    cases crlf
    · rfl
    · rfl
  | cons a t =>
    rw [List.cons_append, TrimLeftSpace_plain_head a _ (h a (List.mem_cons_self _ _)),
      ← List.cons_append]
    exact TrimRightSpace_plain_line (a :: t) crlf h

theorem hasPrefix_dashes_plain_line (chunk : Bytes) (crlf : Bool)
    (h : ∀ x ∈ chunk, plainByte x = true) :
    HasPrefixBytes (chunk ++ crOf crlf) (goBytes "---") = false := by
  have hd : goBytes "---" = [45, 45, 45] := by decide
  unfold HasPrefixBytes
  rw [hd]
  cases chunk with
  | nil => cases crlf <;> rfl
  | cons a t =>
    obtain ⟨-, -, h45, -⟩ := plainByte_facts a (h a (List.mem_cons_self _ _))
    have : ¬ ((45 : Byte) = a) := by
      intro heq
      apply h45
      rw [← heq]
      rfl
    simp [List.isPrefixOf, this]

theorem keptOf_plain_line (chunk : Bytes) (crlf : Bool) (h : ∀ x ∈ chunk, plainByte x = true) :
    keptOf (chunk ++ crOf crlf) = chunk := by
  unfold keptOf
  rw [hasPrefix_dashes_plain_line chunk crlf h]
  simpa using TrimSpace_plain_line chunk crlf h

theorem keptOf_begin (crlf : Bool) :
    keptOf (goBytes "-----BEGIN X509 CRL-----" ++ crOf crlf) = [] := by
  cases crlf <;> decide

theorem keptOf_end (crlf : Bool) :
    keptOf (goBytes "-----END X509 CRL-----" ++ crOf crlf) = [] := by
  cases crlf <;> decide

theorem keptOf_nil : keptOf [] = [] := by decide

theorem pemBodyOf_eq_flatMap (lines : List Bytes) : pemBodyOf lines = lines.flatMap keptOf := by
  have key : ∀ (ls : List Bytes) (acc : Bytes),
      ls.foldl
        (fun pemBody line =>
          if !HasPrefixBytes line (goBytes "---") then pemBody ++ TrimSpace line else pemBody)
        acc = acc ++ ls.flatMap keptOf := by
    intro ls
    induction ls with
    | nil => intro acc; simp
    | cons l rest ih =>
      intro acc
      rw [List.foldl_cons, ih, List.flatMap_cons]
      unfold keptOf
      by_cases hp : HasPrefixBytes l (goBytes "---") = true
      · simp [hp]
      · simp [hp]
  unfold pemBodyOf
  rw [key]
  simp

theorem SplitByte_line (l r : Bytes) (h : ∀ x ∈ l, x.val ≠ 10) :
    SplitByte 10 (l ++ 10 :: r) = l :: SplitByte 10 r := by
  induction l with
  | nil => simp [SplitByte]
  | cons c t ih =>
    have hc : ¬ (c = (10 : Byte)) := by
      intro heq
      exact h c (List.mem_cons_self _ _) (by rw [heq]; rfl)
    rw [List.cons_append, SplitByte, if_neg hc,
      ih (fun x hx => h x (List.mem_cons_of_mem _ hx))]

theorem ContainsBytes_append (pre sub post : Bytes) :
    ContainsBytes (pre ++ (sub ++ post)) sub = true := by
  induction pre with
  | nil =>
    cases hsp : sub ++ post with
    | nil =>
      have : sub = [] := (List.append_eq_nil.1 hsp).1
      subst this
      simp [ContainsBytes, List.isPrefixOf]
    | cons c t =>
      rw [List.nil_append, ContainsBytes, ← hsp]
      have : sub.isPrefixOf (sub ++ post) = true := by
        rw [List.isPrefixOf_iff_prefix]
        exact List.prefix_append _ _
      simp [this]
  | cons c t ih =>
    rw [List.cons_append, ContainsBytes, ih]
    simp

/-! ## The PEM round trip -/

theorem lineEnd_eq (crlf : Bool) : lineEnd crlf = crOf crlf ++ [10] := by
  cases crlf <;> rfl

theorem no_lf_plain_line (chunk : Bytes) (crlf : Bool) (h : ∀ x ∈ chunk, plainByte x = true) :
    ∀ x ∈ chunk ++ crOf crlf, x.val ≠ 10 := by
  intro x hx
  rcases List.mem_append.1 hx with hx | hx
  · exact (plainByte_facts x (h x hx)).2.2.2
  · cases crlf
    · simp [crOf] at hx
    · simp only [crOf, if_true, List.mem_singleton] at hx
      rw [hx]
      decide

theorem no_lf_begin (crlf : Bool) :
    ∀ x ∈ goBytes "-----BEGIN X509 CRL-----" ++ crOf crlf, x.val ≠ 10 := by
  cases crlf <;> decide

theorem no_lf_end (crlf : Bool) :
    ∀ x ∈ goBytes "-----END X509 CRL-----" ++ crOf crlf, x.val ≠ 10 := by
  cases crlf <;> decide

theorem SplitByte_body (body : List (Bytes × Bool)) (tail : Bytes)
    (h : ∀ line ∈ body, ∀ x ∈ line.1, plainByte x = true) :
    SplitByte 10 (body.flatMap (fun line => line.1 ++ lineEnd line.2) ++ tail) =
      body.map (fun line => line.1 ++ crOf line.2) ++ SplitByte 10 tail := by
  induction body with
  | nil => simp
  | cons line rest ih =>
    have hline : ∀ x ∈ line.1, plainByte x = true := h line (List.mem_cons_self _ _)
    have hrest : ∀ l ∈ rest, ∀ x ∈ l.1, plainByte x = true :=
      fun l hl => h l (List.mem_cons_of_mem _ hl)
    have hshape : (line :: rest).flatMap (fun line => line.1 ++ lineEnd line.2) ++ tail =
        (line.1 ++ crOf line.2) ++
          10 :: (rest.flatMap (fun line => line.1 ++ lineEnd line.2) ++ tail) := by
      simp [List.flatMap_cons, lineEnd_eq, List.append_assoc]
    rw [hshape, SplitByte_line _ _ (no_lf_plain_line line.1 line.2 hline), ih hrest]
    simp

theorem keptOf_body (body : List (Bytes × Bool))
    (h : ∀ line ∈ body, ∀ x ∈ line.1, plainByte x = true) :
    (body.map (fun line => line.1 ++ crOf line.2)).flatMap keptOf =
      (body.map Prod.fst).flatten := by
  induction body with
  | nil => simp
  | cons line rest ih =>
    have hline : ∀ x ∈ line.1, plainByte x = true := h line (List.mem_cons_self _ _)
    have hrest : ∀ l ∈ rest, ∀ x ∈ l.1, plainByte x = true :=
      fun l hl => h l (List.mem_cons_of_mem _ hl)
    simp only [List.map_cons, List.flatMap_cons, List.flatten_cons]
    rw [keptOf_plain_line line.1 line.2 hline, ih hrest]

theorem lines_of_armor (b e : Bool) (body : List (Bytes × Bool))
    (h : ∀ line ∈ body, ∀ x ∈ line.1, plainByte x = true) :
    SplitByte 10 (armor b body e) =
      (goBytes "-----BEGIN X509 CRL-----" ++ crOf b) ::
        (body.map (fun line => line.1 ++ crOf line.2) ++
          [goBytes "-----END X509 CRL-----" ++ crOf e, []]) := by
  have hshape : armor b body e =
      (goBytes "-----BEGIN X509 CRL-----" ++ crOf b) ++
        10 :: (body.flatMap (fun line => line.1 ++ lineEnd line.2) ++
          ((goBytes "-----END X509 CRL-----" ++ crOf e) ++ 10 :: [])) := by
    unfold armor
    simp [lineEnd_eq, List.append_assoc]
  rw [hshape, SplitByte_line _ _ (no_lf_begin b), SplitByte_body body _ h,
    SplitByte_line _ _ (no_lf_end e)]
  rfl

theorem armor_contains_marker (b e : Bool) (body : List (Bytes × Bool)) :
    ContainsBytes (armor b body e) (goBytes "BEGIN X509 CRL") = true := by
  have hm : goBytes "-----BEGIN X509 CRL-----" =
      goBytes "-----" ++ (goBytes "BEGIN X509 CRL" ++ goBytes "-----") := by decide
  have hshape : armor b body e =
      goBytes "-----" ++ (goBytes "BEGIN X509 CRL" ++
        (goBytes "-----" ++ lineEnd b ++
          body.flatMap (fun line => line.1 ++ lineEnd line.2) ++
          (goBytes "-----END X509 CRL-----" ++ lineEnd e))) := by
    unfold armor
    rw [hm]
    simp [List.append_assoc]
  rw [hshape]
  exact ContainsBytes_append _ _ _

/-- C7: for every byte string `der` and every PEM armoring of it (BEGIN marker
line, the padded base64 text of `der` cut into body lines of any widths, END
marker line, each line ended by LF or CRLF), `extractCRLDER` returns `der`, which
is also what base64 decoding of the concatenated body lines gives. -/
theorem C7_pem_roundtrip (der : Bytes) (b e : Bool) (body : List (Bytes × Bool))
    (hbody : (body.map Prod.fst).flatten = encodeBytes der) :
    extractCRLDER (armor b body e) = der ∧
    decodeBytes (body.map Prod.fst).flatten = some der := by
  have hplain : ∀ line ∈ body, ∀ x ∈ line.1, plainByte x = true := by
    intro line hl x hx
    apply plainByte_of_mem_encodeBytes der
    rw [← hbody]
    exact List.mem_flatten.2 ⟨line.1, List.mem_map.2 ⟨line, hl, rfl⟩, hx⟩
  have hpem : pemBodyOf (SplitByte 10 (armor b body e)) = encodeBytes der := by
    rw [lines_of_armor b e body hplain, pemBodyOf_eq_flatMap]
    simp only [List.flatMap_cons, List.flatMap_append, List.flatMap_nil]
    rw [keptOf_begin, keptOf_body body hplain, keptOf_end, keptOf_nil, hbody]
    simp
  constructor
  · unfold extractCRLDER
    rw [armor_contains_marker]
    simp only [Bool.not_true, Bool.false_eq_true, if_false]
    rw [hpem, decodeBytes_encodeBytes]
  · rw [hbody, decodeBytes_encodeBytes]

/-- C7 at the DER bytes `1, 2, 3, 4` armored in two CRLF-ended body lines. -/
theorem C7_pem_roundtrip_witness :
    (pemBodySample.map Prod.fst).flatten = encodeBytes [1, 2, 3, 4] ∧
    armor true pemBodySample true = pemSample ∧
    extractCRLDER (armor true pemBodySample true) = [1, 2, 3, 4] :=
  ⟨by decide, by decide, (C7_pem_roundtrip [1, 2, 3, 4] true true pemBodySample (by decide)).1⟩

/-! ## TLS verification of the revocation client -/

theorem SignPDFKitSign_ok (system machine : String) (load_library : String → Bool)
    (signFn : String → Options → String) (options : Options) (libDir libPath : String)
    (hp : GetLibraryPath system machine libDir = Except.ok libPath)
    (hl : load_library libPath = true) :
    SignPDFKitSign system machine load_library signFn options libDir =
      Except.ok ⟨signFn, options, createHTTPClient, libPath, true⟩ := by
  unfold SignPDFKitSign
  rw [hp]
  simp [hl]

theorem SignPDFKitSign_client (system machine : String) (load_library : String → Bool)
    (signFn : String → Options → String) (options : Options) (libDir : String)
    (lib : LibSignPDFValue)
    (h : SignPDFKitSign system machine load_library signFn options libDir = Except.ok lib) :
    lib.httpClient = createHTTPClient := by
  unfold SignPDFKitSign at h
  cases hp : GetLibraryPath system machine libDir with
  | error err => rw [hp] at h; cases h
  | ok libPath =>
    rw [hp] at h
    dsimp only at h
    by_cases hl : load_library libPath = false
    · rw [if_pos hl] at h; cases h
    · rw [if_neg hl] at h
      cases h
      rfl

/-- C11, as the code has it: the transport settings of the HTTP client that
`SignPDFKitSign` builds through `createHTTPClient` do not depend on the caller
(neither function takes a TLS option): whenever `SignPDFKitSign` returns a
signer, its client is the one of `createHTTPClient`, with certificate
verification disabled (`InsecureSkipVerify = true`); and it does return a signer
on a supported platform whose engine loads. -/
theorem C11_tls_verification_fixed (system machine : String) (load_library : String → Bool)
    (signFn : String → Options → String) (options : Options) (libDir : String) :
    createHTTPClient.Transport.TLSClientConfig.InsecureSkipVerify = true ∧
    (∀ lib : LibSignPDFValue,
      SignPDFKitSign system machine load_library signFn options libDir = Except.ok lib →
      lib.httpClient = createHTTPClient ∧
      lib.httpClient.Transport.TLSClientConfig.InsecureSkipVerify = true) ∧
    (∀ libPath : String,
      GetLibraryPath system machine libDir = Except.ok libPath →
      load_library libPath = true →
      ∃ lib : LibSignPDFValue,
        SignPDFKitSign system machine load_library signFn options libDir = Except.ok lib ∧
        lib.libPath = libPath ∧ lib.libLoaded = true ∧
        lib.httpClient.Transport.TLSClientConfig.InsecureSkipVerify = true) := by
  refine ⟨rfl, ?_, ?_⟩
  · intro lib h
    have hc := SignPDFKitSign_client system machine load_library signFn options libDir lib h
    exact ⟨hc, by rw [hc]; rfl⟩
  · intro libPath hp hl
    exact ⟨⟨signFn, options, createHTTPClient, libPath, true⟩,
      SignPDFKitSign_ok system machine load_library signFn options libDir libPath hp hl,
      rfl, rfl, rfl⟩

/-- C11 on linux/amd64 with an engine that loads: a signer is returned, for the
library `../lib/linux_x86_64/libsignpdfkit.so`, and its client skips certificate
verification. -/
theorem C11_tls_verification_fixed_witness :
    ∃ lib : LibSignPDFValue,
      SignPDFKitSign "linux" "amd64" (fun _ => true) stubLib.signFn stubLib.options "../lib"
        = Except.ok lib ∧
      lib.libPath = "../lib/linux_x86_64/libsignpdfkit.so" ∧ lib.libLoaded = true ∧
      lib.httpClient.Transport.TLSClientConfig.InsecureSkipVerify = true :=
  (C11_tls_verification_fixed "linux" "amd64" (fun _ => true) stubLib.signFn stubLib.options
    "../lib").2.2 "../lib/linux_x86_64/libsignpdfkit.so" (by rfl) rfl

/-- C11 as stated fails: on linux/amd64 with an engine that loads and a caller
that passes only the callback, the options and the library directory,
`SignPDFKitSign` returns a signer whose client has `InsecureSkipVerify = true`,
not `false`. -/
theorem C11_verification_disabled_counterexample :
    SignPDFKitSign "linux" "amd64" (fun _ => true) stubLib.signFn stubLib.options "../lib" =
      Except.ok ⟨stubLib.signFn, stubLib.options, createHTTPClient,
        "../lib/linux_x86_64/libsignpdfkit.so", true⟩ ∧
    createHTTPClient.Transport.TLSClientConfig.InsecureSkipVerify ≠ false := by
  refine ⟨?_, by decide⟩
  exact SignPDFKitSign_ok "linux" "amd64" (fun _ => true) stubLib.signFn stubLib.options
    "../lib" "../lib/linux_x86_64/libsignpdfkit.so" (by rfl) rfl

end SignPDFKit
